import Mathlib

/-!
TigerViewer (`src/main.cc`): a shallow embedding and its verified properties.

The viewer pipes the text of an editor buffer through an external compiler (`./tc`), lays the
resulting graph description out with `dot`, rasterises the SVG with librsvg/cairo and shows the
texture with pan/zoom controls.

Modelling conventions

* A `float` or `double` value (zoom, pan, time, available area) is the rational number it
  denotes.  Every floating-point operation of the source is the exact operation followed by
  IEEE 754 rounding to nearest, ties to even, to the format of the operation (`fround`):
  binary64 for the subtraction of line 367, binary32 for the zoom and pan arithmetic.  A
  result of magnitude beyond the largest finite value stands for the infinity of its sign,
  which the comparisons of lines 367 and 433-435 treat in the same way; the pan offsets are
  taken to stay finite, and no operation modelled here yields a NaN from finite operands.
* C strings and the `char[8192]` editor buffer are lists of bytes (`Nat`, `0` is the terminator).
* Everything outside the program (the compiler, the shell, librsvg, cairo, OpenGL) is a field of
  `Env`.  Each such oracle also receives the trace of external actions performed so far, so an
  `Env` can answer the same request differently at different moments.
* The external actions the program performs are appended to `World.trace`, in program order.
* `pipe`, `fork` and `write` are taken to succeed: when they fail the source throws a
  `std::runtime_error` that `main` never catches, so the process ends there.
-/

namespace TigerViewer

/-! ## Data model -/

/-- Constant `COMPILE_DELAY = 0.5f` (line 40). -/
def COMPILE_DELAY : ℚ := 1 / 2

/-- Capacity of `static char code_buffer[8192]` (line 250). -/
def CODE_BUFFER_SIZE : Nat := 8192

/-- The `struct CompilerOutput` of lines 44-47. -/
structure CompilerOutput where
  out : String
  err : String

/-- External actions of the program, one constructor per kind of call that leaves the process. -/
inductive Event where
  /-- Call `execv("./tc", args)` in the forked child, `stdin` being what the parent writes. -/
  | exec (argv : List String) (stdin : List Nat)
  /-- Writing `content` to `path` through a `std::ofstream`. -/
  | write (path : String) (content : String)
  /-- Call `std::system(cmd)`. -/
  | system (cmd : String)
  /-- Call `rsvg_handle_new_from_file(path)`, the first statement of the renderer. -/
  | rsvgLoad (path : String)
  /-- Call `glDeleteTextures(1, &tex)`. -/
  | glDeleteTextures (tex : Nat)
  /-- Call `glGenTextures(1, &tex)` followed by the upload, `tex` being the name obtained. -/
  | glGenTextures (tex : Nat)
  /-- Call `fprintf(stderr, fmt, ...)`; only the message text before the arguments is kept. -/
  | stderr (msg : String)
  deriving DecidableEq, Repr

/-- Content of the filesystem: what each path holds, `none` when the file is absent. -/
abbrev Files := String → Option String

/-- The part of the machine the program acts on. -/
structure World where
  /-- Files by path. -/
  files : Files
  /-- Names of the OpenGL textures currently allocated. -/
  textures : List Nat
  /-- External actions so far, oldest first. -/
  trace : List Event

/-- Behaviour of everything the program calls but does not implement. -/
structure Env where
  /-- What `./tc` prints on stdout and stderr for an argument vector and an input. -/
  tc : List Event → List String → List Nat → CompilerOutput
  /-- Whether a `std::ofstream` on the path opens (and so the write reaches the file). -/
  ofstreamOpens : List Event → String → Bool
  /-- Exit status and new file contents of `std::system(cmd)`. -/
  system : List Event → String → Files → Int × Files
  /-- Outcome of `rsvg_handle_new_from_file` then `rsvg_handle_get_dimensions` on a file
  content: an error message, or the width and height of the image. -/
  rsvg_handle_new_from_file : List Event → Option String → Except String (Int × Int)
  /-- Whether `cairo_image_surface_create` yields a surface for a width and height. -/
  cairo_image_surface_create : List Event → Int → Int → Bool
  /-- Whether `cairo_create` yields a context. -/
  cairo_create : List Event → Bool
  /-- Whether `rsvg_handle_render_cairo` succeeds. -/
  rsvg_handle_render_cairo : List Event → Bool
  /-- Whether `cairo_image_surface_get_data` yields a pixel pointer. -/
  cairo_image_surface_get_data : List Event → Bool
  /-- Name handed out by `glGenTextures` given the names currently allocated. -/
  glGenTextures : List Event → List Nat → Nat
  /-- Value of `static_cast<int>(x)` when the truncated `x` does not fit a 32-bit `int`; C++
  leaves it undefined (x86-64 yields `INT_MIN`). -/
  floatToIntUndefined : ℚ → Int

/-- Record one external action. -/
def World.log (w : World) (e : Event) : World :=
  { w with trace := w.trace ++ [e] }

/-! ## Process Runner (lines 50-143) -/

/-- The `args` vector built in the child (lines 84-95), without the closing `nullptr`. -/
def compiler_args (flagX flagB flagR flagE : Bool) : List String :=
  let args : List String := []
  let args := args ++ ["./tc"]
  let args := if flagX then args ++ ["-X"] else args
  let args := if flagB then args ++ ["-bB"] else args
  let args := if flagR then args ++ ["--rename"] else args
  let args := if flagE then args ++ ["-eE"] else args
  let args := args ++ ["--ast-dump"]
  let args := args ++ ["-"]
  args

/-- Function `run_compiler_with_input` (lines 52-143): the child executes `./tc` with the
argument vector, the parent writes `input` to its stdin and collects both output streams. -/
def run_compiler_with_input (env : Env) (input : List Nat)
    (flagX flagB flagR flagE : Bool) (w : World) : CompilerOutput × World :=
  let args := compiler_args flagX flagB flagR flagE
  (env.tc w.trace args input, w.log (Event.exec args input))

/-! ## Diagram Rasterizer (lines 145-162) -/

/-- The statement block `{ std::ofstream dotFile(dotPath); dotFile << dotContent; }`. -/
def writeFile (env : Env) (path content : String) (w : World) : World :=
  let files : Files :=
    if env.ofstreamOpens w.trace path then
      fun p => if p = path then some content else w.files p
    else w.files
  { w with files := files, trace := w.trace ++ [Event.write path content] }

/-- Call `std::system(cmd)`: the exit status and the world afterwards. -/
def system (env : Env) (cmd : String) (w : World) : Int × World :=
  let r := env.system w.trace cmd w.files
  (r.1, { w with files := r.2, trace := w.trace ++ [Event.system cmd] })

/-- The stable path `/tmp/ast.svg` shown by the UI (line 264). -/
def svgPath : String := "/tmp/ast.svg"

/-- The layout command assembled on line 156. -/
def dotCmd : String := "dot -Tsvg " ++ "/tmp/ast.dot" ++ " -o /tmp/ast_new.svg"

/-- The move command of line 160. -/
def mvCmd : String := "mv /tmp/ast_new.svg /tmp/ast.svg"

/-- Function `generate_svg_from_dot` (lines 147-162). -/
def generate_svg_from_dot (env : Env) (dotContent : String) (w : World) : Bool × World :=
  if dotContent = "" then
    (false, w)
  else
    let dotPath := "/tmp/ast.dot"
    let w := writeFile env dotPath dotContent w
    let cmd := "dot -Tsvg " ++ dotPath ++ " -o /tmp/ast_new.svg"
    let (ret, w) := system env cmd w
    if ret ≠ 0 then
      (false, w)
    else
      let (_, w) := system env "mv /tmp/ast_new.svg /tmp/ast.svg" w
      (true, w)

/-! ## Vector-to-Bitmap Renderer (lines 164-220) and the application state -/

/-- The power `2 ^ k` for an integer `k`. -/
def pow2 (k : Int) : ℚ :=
  if 0 ≤ k then ((2 ^ k.toNat : Nat) : ℚ) else 1 / ((2 ^ (-k).toNat : Nat) : ℚ)

/-- Binary logarithm by halving, at most `fuel` times. -/
def log2Fuel : Nat → Nat → Nat
  | 0, _ => 0
  | fuel + 1, n => if 2 ≤ n then log2Fuel fuel (n / 2) + 1 else 0

/-- The `e` with `2 ^ e ≤ n < 2 ^ (e + 1)`, for `n ≥ 1`. -/
def natLog2 (n : Nat) : Nat := log2Fuel n n

/-- The `e` with `2 ^ e ≤ x < 2 ^ (e + 1)`, for a rational `x > 0`. -/
def floorLog2 (x : ℚ) : Int :=
  let e : Int := (natLog2 x.num.natAbs : Int) - (natLog2 x.den : Int)
  if pow2 e ≤ x then e else e - 1

/-- The integer nearest to `m`, the even one of the two when `m` lies half-way. -/
def roundHalfEven (m : ℚ) : Int :=
  let f := ⌊m⌋
  if m - f < 1 / 2 then f
  else if 1 / 2 < m - f then f + 1
  else if f % 2 = 0 then f else f + 1

/-- IEEE 754 rounding to nearest, ties to even, of the real `x` to the binary format with `p`
significand bits whose smallest positive (subnormal) value is `2 ^ emin`: the spacing of the
format around `x` is `2 ^ k`, and `x` goes to the nearest multiple of it. -/
def fround (p : Nat) (emin : Int) (x : ℚ) : ℚ :=
  if x = 0 then 0
  else
    let k := max (floorLog2 (if x < 0 then -x else x) - ((p : Int) - 1)) emin
    (roundHalfEven (x / pow2 k) : ℚ) * pow2 k

/-- Rounding to `double` (binary64). -/
def roundDouble (x : ℚ) : ℚ := fround 53 (-1074) x

/-- Rounding to `float` (binary32). -/
def roundFloat (x : ℚ) : ℚ := fround 24 (-149) x

/-- Subtraction of two `double` values. -/
def fsub64 (a b : ℚ) : ℚ := roundDouble (a - b)

/-- Division of two `float` values. -/
def fdiv32 (a b : ℚ) : ℚ := roundFloat (a / b)

/-- Multiplication of two `float` values. -/
def fmul32 (a b : ℚ) : ℚ := roundFloat (a * b)

/-- Addition of two `float` values. -/
def fadd32 (a b : ℚ) : ℚ := roundFloat (a + b)

/-- Conversion `(float)n` of an `int`. -/
def intToFloat (n : Int) : ℚ := roundFloat n

/-- The literal `0.05f`: the `float` nearest to 1/20. -/
def FLOAT_0_05 : ℚ := 13421773 / 268435456

/-- Conversion `static_cast<int>(x)` of a `float`: truncation toward zero when the result
fits a 32-bit `int`. -/
def toInt (env : Env) (x : ℚ) : Int :=
  let t : Int := if 0 ≤ x then ⌊x⌋ else ⌈x⌉
  if -2147483648 ≤ t ∧ t ≤ 2147483647 then t else env.floatToIntUndefined x

/-- The C++ `std::min(a, b)`: `b` when `b < a`, else `a`. -/
def stdMin (a b : ℚ) : ℚ := if b < a then b else a

/-- The C++ `std::clamp(v, lo, hi)`: `lo` when `v < lo`, `hi` when `hi < v`, else `v`. -/
def stdClamp (v lo hi : ℚ) : ℚ := if v < lo then lo else if hi < v then hi else v

/-- Mutable state of the program: the locals and statics of `main` (lines 250-274), the two
globals of lines 34-35, and the world outside. -/
structure App where
  /-- Array `static char code_buffer[8192]`. -/
  code_buffer : List Nat
  /-- Last snapshot of the text, a `std::string`. -/
  lastCode : List Nat
  lastChangeTime : ℚ
  codeChanged : Bool
  logOutput : String
  optionX : Bool
  optionB : Bool
  optionR : Bool
  optionE : Bool
  zoom : ℚ
  offsetX : ℚ
  offsetY : ℚ
  /-- Texture handle, `0` meaning that there is no image. -/
  svgTexture : Nat
  imgWidth : Int
  imgHeight : Int
  showLogs : Bool
  baseSVGWidth : Int
  baseSVGHeight : Int
  world : World

/-- Function `render_svg_with_librsvg` (lines 166-220) called with `imgWidth`, `imgHeight` as
its two reference parameters: the texture name, or the message of the exception thrown,
together with the state as the call leaves it. -/
def render_svg_with_librsvg (env : Env) (svgFilePath : String) (zoom : ℚ) (s : App) :
    Except String Nat × App :=
  let s := { s with world := s.world.log (Event.rsvgLoad svgFilePath) }
  match env.rsvg_handle_new_from_file s.world.trace (s.world.files svgFilePath) with
  | .error err => (.error ("rsvg_handle_new_from_file: " ++ err), s)
  | .ok (width, height) =>
    let s := { s with baseSVGWidth := width, baseSVGHeight := height }
    let s := { s with imgWidth := max 1 (toInt env (fmul32 (intToFloat width) zoom)) }
    let s := { s with imgHeight := max 1 (toInt env (fmul32 (intToFloat height) zoom)) }
    if !env.cairo_image_surface_create s.world.trace s.imgWidth s.imgHeight then
      (.error "Erreur création surface Cairo.", s)
    else if !env.cairo_create s.world.trace then
      (.error "Erreur création contexte Cairo.", s)
    else if !env.rsvg_handle_render_cairo s.world.trace then
      (.error "Erreur rendu SVG avec Cairo.", s)
    else if !env.cairo_image_surface_get_data s.world.trace then
      (.error "Erreur accès données Cairo.", s)
    else
      let texture := env.glGenTextures s.world.trace s.world.textures
      let w := { s.world with textures := texture :: s.world.textures }
      (.ok texture, { s with world := w.log (Event.glGenTextures texture) })

/-- Call `glDeleteTextures(1, &tex)`. -/
def glDeleteTextures (tex : Nat) (w : World) : World :=
  { w with textures := w.textures.filter (fun t => t != tex),
           trace := w.trace ++ [Event.glDeleteTextures tex] }

/-! ## Application Loop (lines 225-475) -/

/-- First statement of `reRenderSVG` (lines 278-281): release the current texture. -/
def dropTexture (s : App) : App :=
  if s.svgTexture ≠ 0 then
    { s with world := glDeleteTextures s.svgTexture s.world, svgTexture := 0 }
  else s

/-- The lambda `reRenderSVG` (lines 277-287). -/
def reRenderSVG (env : Env) (s : App) : App :=
  let s := dropTexture s
  match render_svg_with_librsvg env svgPath s.zoom s with
  | (.ok texture, s) => { s with svgTexture := texture }
  | (.error _, s) => { s with world := s.world.log (Event.stderr "Erreur rendu SVG: ") }

/-- The bytes of a C string: those before the first terminator. -/
def cstr (p : List Nat) : List Nat := p.takeWhile (fun b => b != 0)

/-- The message of line 297. -/
def keepOldImage : String :=
  "Compilation ou génération SVG échouée, on conserve l'ancienne image.\n"

/-- The lambda `doCompile` (lines 290-299). -/
def doCompile (env : Env) (s : App) : App :=
  let (compOut, w) :=
    run_compiler_with_input env (cstr s.code_buffer) s.optionX s.optionB s.optionR s.optionE
      s.world
  let s := { s with world := w }
  let s := { s with logOutput := s.logOutput ++ (compOut.err ++ "\n") }
  if compOut.out ≠ "" then
    let (ok, w) := generate_svg_from_dot env compOut.out s.world
    let s := { s with world := w }
    if ok then
      reRenderSVG env s
    else
      { s with world := s.world.log (Event.stderr keepOldImage) }
  else
    { s with world := s.world.log (Event.stderr keepOldImage) }

/-- The C `strncpy(dst, src, n)`: the first `n` bytes of `dst` become the C string `src` cut
to `n` bytes and padded with terminators; `dst` has at least `n` bytes. -/
def strncpy (dst src : List Nat) (n : Nat) : List Nat :=
  (cstr src).take n ++ List.replicate (n - (cstr src).length) 0 ++ dst.drop n

/-- What the "Open File" button led to in a frame. -/
inductive OpenFile where
  /-- The button was not pressed. -/
  | notPressed
  /-- The dialog returned no file. -/
  | cancelled
  /-- The `std::ifstream` on the selected file is not good. -/
  | unreadable
  /-- The whole content of the selected file. -/
  | content (bytes : List Nat)

/-- User input and toolkit values of one frame.  A button or menu item reports a press only
when the bar or menu holding it is shown. -/
structure FrameInput where
  /-- Value of `ImGui::GetTime()`, a `double`, the same for every call within the frame. -/
  time : ℚ
  compilerButton : Bool
  openFile : OpenFile
  itemX : Bool
  itemB : Bool
  itemR : Bool
  itemE : Bool
  logsButton : Bool
  /-- The bytes `InputTextMultiline` leaves in `code_buffer` when the user edits the text. -/
  edit : Option (List Nat)
  /-- The drag delta when the image area is hovered and the mouse is dragging. -/
  drag : Option (ℚ × ℚ)
  /-- The value `VSliderFloat` writes to `zoom` when the slider is moved. -/
  slider : Option ℚ
  resetButton : Bool
  /-- Local `imageAreaWidth = childSize.x - sliderWidth - 10.0f`. -/
  imageAreaWidth : ℚ
  /-- Value `childSize.y`. -/
  childSizeY : ℚ
  /-- The user closed the log window. -/
  logsClosed : Bool

/-- Body of `if (file) { ... }` (lines 322-327): copy the content into the buffer, compile. -/
def loadFile (env : Env) (content : List Nat) (s : App) : App :=
  let copied := strncpy s.code_buffer (content ++ [0]) (CODE_BUFFER_SIZE - 1)
  let s := { s with code_buffer := copied }
  let s := { s with code_buffer := s.code_buffer.set (CODE_BUFFER_SIZE - 1) 0 }
  doCompile env s

/-- The "Compiler" button (lines 312-314). -/
def compilerButton (env : Env) (inp : FrameInput) (s : App) : App :=
  if inp.compilerButton then doCompile env s else s

/-- The "Open File" button (lines 316-330). -/
def openFileButton (env : Env) (inp : FrameInput) (s : App) : App :=
  match inp.openFile with
  | .content bytes => loadFile env bytes s
  | _ => s

/-- Menu entry "Option -X" (lines 332-336): `MenuItem` flips `tmpX` when pressed. -/
def optionItemX (env : Env) (inp : FrameInput) (s : App) : App :=
  let tmpX := s.optionX
  let tmpX := if inp.itemX then !tmpX else tmpX
  if inp.itemX && (tmpX != s.optionX) then doCompile env { s with optionX := tmpX } else s

/-- Menu entry "Option -b" (lines 337-341). -/
def optionItemB (env : Env) (inp : FrameInput) (s : App) : App :=
  let tmpB := s.optionB
  let tmpB := if inp.itemB then !tmpB else tmpB
  if inp.itemB && (tmpB != s.optionB) then doCompile env { s with optionB := tmpB } else s

/-- Menu entry "Option -r" (lines 342-346). -/
def optionItemR (env : Env) (inp : FrameInput) (s : App) : App :=
  let tmpR := s.optionR
  let tmpR := if inp.itemR then !tmpR else tmpR
  if inp.itemR && (tmpR != s.optionR) then doCompile env { s with optionR := tmpR } else s

/-- Menu entry "Option -e" (lines 347-351). -/
def optionItemE (env : Env) (inp : FrameInput) (s : App) : App :=
  let tmpE := s.optionE
  let tmpE := if inp.itemE then !tmpE else tmpE
  if inp.itemE && (tmpE != s.optionE) then doCompile env { s with optionE := tmpE } else s

/-- The "Logs" button (lines 355-356). -/
def logsButton (inp : FrameInput) (s : App) : App :=
  if inp.logsButton then { s with showLogs := !s.showLogs } else s

/-- The main menu bar (lines 311-358). -/
def menuBar (env : Env) (inp : FrameInput) (s : App) : App :=
  let s := compilerButton env inp s
  let s := openFileButton env inp s
  let s := optionItemX env inp s
  let s := optionItemB env inp s
  let s := optionItemR env inp s
  let s := optionItemE env inp s
  logsButton inp s

/-- Test `strcmp(code_buffer, lastCode.c_str()) != 0` of line 361. -/
def textDiffers (s : App) : Bool := cstr s.code_buffer != cstr (s.lastCode ++ [0])

/-- Change detection (lines 361-365). -/
def detectChange (now : ℚ) (s : App) : App :=
  if textDiffers s then
    { s with lastCode := cstr s.code_buffer, codeChanged := true, lastChangeTime := now }
  else s

/-- Test `codeChanged && (now - lastChangeTime) > COMPILE_DELAY` of line 367: the difference
of the two `double` values is rounded to `double`, the constant `0.5f` converts exactly. -/
def debounceDue (now : ℚ) (s : App) : Bool :=
  s.codeChanged && decide (fsub64 now s.lastChangeTime > COMPILE_DELAY)

/-- Debounced compilation (lines 366-370). -/
def debounce (env : Env) (now : ℚ) (s : App) : App :=
  if debounceDue now s then doCompile env { s with codeChanged := false } else s

/-- The editor widget (lines 387-388). -/
def editor (inp : FrameInput) (s : App) : App :=
  match inp.edit with
  | some bytes => { s with code_buffer := bytes }
  | none => s

/-- Pan by dragging (lines 402-407). -/
def pan (inp : FrameInput) (s : App) : App :=
  match inp.drag with
  | some (dx, dy) => { s with offsetX := fadd32 s.offsetX dx, offsetY := fadd32 s.offsetY dy }
  | none => s

/-- The zoom slider (lines 422-424). -/
def zoomSlider (env : Env) (inp : FrameInput) (s : App) : App :=
  match inp.slider with
  | some v => reRenderSVG env { s with zoom := v }
  | none => s

/-- Body of the "Reset" button (lines 427-440). -/
def reset (env : Env) (imageAreaWidth childSizeY : ℚ) (s : App) : App :=
  let s := { s with offsetX := 0 }
  let s := { s with offsetY := 0 }
  let availableWidth := imageAreaWidth
  let availableHeight := childSizeY
  if s.baseSVGWidth > 0 ∧ s.baseSVGHeight > 0 ∧ availableWidth > 0 ∧ availableHeight > 0 then
    let newZoom := stdMin (fdiv32 availableWidth (intToFloat s.baseSVGWidth))
      (fdiv32 availableHeight (intToFloat s.baseSVGHeight))
    let s := { s with zoom := stdClamp newZoom FLOAT_0_05 (7 / 2) }
    reRenderSVG env s
  else
    { s with world := s.world.log (Event.stderr "Reset impossible : dimensions invalides") }

/-- The "Reset" button (line 426). -/
def resetButton (env : Env) (inp : FrameInput) (s : App) : App :=
  if inp.resetButton then reset env inp.imageAreaWidth inp.childSizeY s else s

/-- The log window (lines 449-455), which the user can close. -/
def logsWindow (inp : FrameInput) (s : App) : App :=
  if s.showLogs && inp.logsClosed then { s with showLogs := false } else s

/-- One iteration of the main loop (lines 304-465). -/
def frame (env : Env) (inp : FrameInput) (s : App) : App :=
  let s := menuBar env inp s
  let s := detectChange inp.time s
  let s := debounce env inp.time s
  let s := editor inp s
  let s := pan inp s
  let s := zoomSlider env inp s
  let s := resetButton env inp s
  logsWindow inp s

/-- The main loop over the frames of a session. -/
def run (env : Env) (s : App) : List FrameInput → App
  | [] => s
  | inp :: rest => run env (frame env inp s) rest

/-- The default text of the editor (line 250). -/
def defaultCode : List Nat := "print(\"Hello World\")".toList.map Char.toNat

/-- State at the first statement of the main loop: the initialisations of lines 250-274 and
the first `doCompile()` of line 301. -/
def startup (env : Env) (w : World) : App :=
  doCompile env
    { code_buffer := defaultCode ++ List.replicate (CODE_BUFFER_SIZE - defaultCode.length) 0
      lastCode := defaultCode
      lastChangeTime := 0
      codeChanged := false
      logOutput := ""
      optionX := false
      optionB := false
      optionR := false
      optionE := false
      zoom := stdClamp 1 FLOAT_0_05 (7 / 2)
      offsetX := 0
      offsetY := 0
      svgTexture := 0
      imgWidth := 0
      imgHeight := 0
      showLogs := false
      baseSVGWidth := 0
      baseSVGHeight := 0
      world := w }

/-- Number of compiler executions recorded in a trace. -/
def compileCount (tr : List Event) : Nat :=
  (tr.filter (fun e => match e with | .exec _ _ => true | _ => false)).length

/-- Number of renderer invocations recorded in a trace. -/
def renderCount (tr : List Event) : Nat :=
  (tr.filter (fun e => match e with | .rsvgLoad _ => true | _ => false)).length

/-- Whether the "Open File" button loaded a file in the frame. -/
def OpenFile.loads : OpenFile → Bool
  | .content _ => true
  | _ => false

/-- Number of controls pressed in a frame that start a compile cycle at once: the "Compiler"
button, a successful "Open File", and the four option entries. -/
def manualTriggers (inp : FrameInput) : Nat :=
  (if inp.compilerButton then 1 else 0) + (if inp.openFile.loads then 1 else 0)
    + (if inp.itemX then 1 else 0) + (if inp.itemB then 1 else 0)
    + (if inp.itemR then 1 else 0) + (if inp.itemE then 1 else 0)

/-- What one frame shows of the compile logic. -/
structure FrameLog where
  /-- Time of the frame. -/
  time : ℚ
  /-- Outcome of the test of line 361 when the frame ran it. -/
  changeDetected : Bool
  /-- Outcome of the test of line 367 when the frame ran it. -/
  debounceFired : Bool
  /-- Number of compiler executions during the frame. -/
  compiles : Nat
  deriving DecidableEq, Repr

/-- The log entry of one frame started in state `s`. -/
def frameLog (env : Env) (inp : FrameInput) (s : App) : FrameLog :=
  { time := inp.time
    changeDetected := textDiffers (menuBar env inp s)
    debounceFired := debounceDue inp.time (detectChange inp.time (menuBar env inp s))
    compiles := compileCount (frame env inp s).world.trace - compileCount s.world.trace }

/-- The log entries of the frames of a session started in state `s`. -/
def runLog (env : Env) (s : App) : List FrameInput → List FrameLog
  | [] => []
  | inp :: rest => frameLog env inp s :: runLog env (frame env inp s) rest

/-- The times at which the frames of a log detected a change of the text. -/
def changeTimes (log : List FrameLog) : List ℚ :=
  (log.filter (fun l => l.changeDetected)).map (fun l => l.time)

/-- The three variables of the debounce logic are the same in both states. -/
structure SameSnapshot (s t : App) : Prop where
  lastCode : t.lastCode = s.lastCode
  lastChangeTime : t.lastChangeTime = s.lastChangeTime
  codeChanged : t.codeChanged = s.codeChanged

/-- The fields of the state that neither the renderer nor a compile cycle writes. -/
structure SameControls (s t : App) : Prop where
  code_buffer : t.code_buffer = s.code_buffer
  lastCode : t.lastCode = s.lastCode
  lastChangeTime : t.lastChangeTime = s.lastChangeTime
  codeChanged : t.codeChanged = s.codeChanged
  optionX : t.optionX = s.optionX
  optionB : t.optionB = s.optionB
  optionR : t.optionR = s.optionR
  optionE : t.optionE = s.optionE
  zoom : t.zoom = s.zoom
  offsetX : t.offsetX = s.offsetX
  offsetY : t.offsetY = s.offsetY
  showLogs : t.showLogs = s.showLogs

/-! ## Concrete environments and states used as test inputs -/

/-- An environment in which every tool succeeds: the compiler prints a graph, `dot` writes
`/tmp/ast_new.svg`, `mv` moves it to the stable path, the image is 400 by 300. -/
def env0 : Env :=
  { tc := fun _ _ _ => { out := "digraph", err := "" }
    ofstreamOpens := fun _ _ => true
    system := fun _ cmd fs =>
      if cmd = mvCmd then (0, fun p => if p = svgPath then fs "/tmp/ast_new.svg" else fs p)
      else (0, fun p => if p = "/tmp/ast_new.svg" then some "svg" else fs p)
    rsvg_handle_new_from_file := fun _ c =>
      match c with
      | some _ => .ok (400, 300)
      | none => .error "no file"
    cairo_image_surface_create := fun _ _ _ => true
    cairo_create := fun _ => true
    rsvg_handle_render_cairo := fun _ => true
    cairo_image_surface_get_data := fun _ => true
    glGenTextures := fun _ ts => ts.foldr max 0 + 1
    floatToIntUndefined := fun _ => -2147483648 }

/-- As `env0`, but `dot` exits with status 1 and writes nothing. -/
def envDotFails : Env :=
  { env0 with system := fun _ _ fs => (1, fs) }

/-- As `env0`, but librsvg cannot load the image. -/
def envLoadFails : Env :=
  { env0 with rsvg_handle_new_from_file := fun _ _ => .error "unreadable" }

/-- A world with no file, no texture and an empty trace. -/
def world0 : World := { files := fun _ => none, textures := [], trace := [] }

/-- A world whose stable path holds an earlier image. -/
def worldWithImage : World :=
  { files := fun p => if p = svgPath then some "old svg" else none, textures := [], trace := [] }

/-- A state showing texture 1 of a 400 by 300 image at zoom 1, panned to (5, 7). -/
def appShown : App :=
  { code_buffer := defaultCode ++ List.replicate (CODE_BUFFER_SIZE - defaultCode.length) 0
    lastCode := defaultCode
    lastChangeTime := 0
    codeChanged := false
    logOutput := ""
    optionX := false
    optionB := false
    optionR := false
    optionE := false
    zoom := 1
    offsetX := 5
    offsetY := 7
    svgTexture := 1
    imgWidth := 400
    imgHeight := 300
    showLogs := false
    baseSVGWidth := 400
    baseSVGHeight := 300
    world := { files := fun p => if p = svgPath then some "old svg" else none
               textures := [1]
               trace := [] } }

/-- As `appShown`, before any image was loaded: the natural dimensions are still 0. -/
def appNoImage : App :=
  { appShown with svgTexture := 0, imgWidth := 0, imgHeight := 0, baseSVGWidth := 0,
                  baseSVGHeight := 0 }

/-- As `appShown`, with an image of natural size 300 by 300. -/
def appSquare : App :=
  { appShown with baseSVGWidth := 300, baseSVGHeight := 300 }

/-- The `double` 0x1.0000000000001p-2, that is 1/4 + 2^-54. -/
def timeQuarter : ℚ := 4503599627370497 / 18014398509481984

/-- The `double` 0x1.8000000000001p-1, that is 3/4 + 2^-53. -/
def timeThreeQuarters : ℚ := 6755399441055745 / 9007199254740992

/-- A frame at time `t` in which the user does nothing. -/
def idleFrame (t : ℚ) : FrameInput :=
  { time := t
    compilerButton := false
    openFile := OpenFile.notPressed
    itemX := false
    itemB := false
    itemR := false
    itemE := false
    logsButton := false
    edit := none
    drag := none
    slider := none
    resetButton := false
    imageAreaWidth := 600
    childSizeY := 650
    logsClosed := false }

/-- A frame at time `t` in which the user types, leaving `text` in the editor buffer. -/
def typingFrame (t : ℚ) (text : List Nat) : FrameInput :=
  { idleFrame t with
    edit := some (text ++ List.replicate (CODE_BUFFER_SIZE - text.length) 0) }

/-- A frame at time `t` in which the user opens a file holding `bytes`. -/
def openFrame (t : ℚ) (bytes : List Nat) : FrameInput :=
  { idleFrame t with openFile := OpenFile.content bytes }

/-! ## Lemmas on floating-point rounding -/

theorem pow2_pos (k : Int) : 0 < pow2 k := by
  unfold pow2
  split_ifs
  · positivity
  · positivity

theorem log2Fuel_spec (fuel n : Nat) (h : n ≤ fuel) (hn : 0 < n) :
    2 ^ log2Fuel fuel n ≤ n ∧ n < 2 ^ (log2Fuel fuel n + 1) := by
  induction fuel generalizing n with
  | zero => omega
  | succ fuel ih =>
    unfold log2Fuel
    split_ifs with h2
    · have h3 := ih (n / 2) (by omega) (by omega)
      constructor
      · calc 2 ^ (log2Fuel fuel (n / 2) + 1) = 2 ^ log2Fuel fuel (n / 2) * 2 := by ring
          _ ≤ (n / 2) * 2 := Nat.mul_le_mul_right 2 h3.1
          _ ≤ n := Nat.div_mul_le_self n 2
      · have h4 : n / 2 + 1 ≤ 2 ^ (log2Fuel fuel (n / 2) + 1) := h3.2
        calc n < (n / 2 + 1) * 2 := by omega
          _ ≤ 2 ^ (log2Fuel fuel (n / 2) + 1) * 2 := Nat.mul_le_mul_right 2 h4
          _ = 2 ^ (log2Fuel fuel (n / 2) + 1 + 1) := by ring
    · constructor
      · simp; omega
      · simp; omega

theorem natLog2_spec (n : Nat) (hn : 0 < n) :
    2 ^ natLog2 n ≤ n ∧ n < 2 ^ (natLog2 n + 1) :=
  log2Fuel_spec n n (le_refl n) hn

theorem natLog2_mono (a b : Nat) (ha : 0 < a) (hab : a ≤ b) : natLog2 a ≤ natLog2 b := by
  have h₁ := (natLog2_spec a ha).1
  have h₂ := (natLog2_spec b (lt_of_lt_of_le ha hab)).2
  have h₃ : 2 ^ natLog2 a < 2 ^ (natLog2 b + 1) := lt_of_le_of_lt (h₁.trans hab) h₂
  have h₄ := (Nat.pow_lt_pow_iff_right (by norm_num : 1 < 2)).mp h₃
  omega

theorem one_le_pow2 (k : Int) (hk : 0 ≤ k) : 1 ≤ pow2 k := by
  unfold pow2
  rw [if_pos hk]
  exact_mod_cast Nat.one_le_two_pow

theorem floorLog2_le_neg_one (x : ℚ) (h0 : 0 < x) (h : x ≤ 1 / 2) : floorLog2 x ≤ -1 := by
  unfold floorLog2
  simp only
  split_ifs with hb
  · by_contra hc
    have hk : 0 ≤ (natLog2 x.num.natAbs : Int) - (natLog2 x.den : Int) := by omega
    have := one_le_pow2 _ hk
    linarith
  · have hnum : 0 < x.num := Rat.num_pos.mpr h0
    have hlt : x < 1 := by linarith
    have hnd : x.num < x.den := Rat.lt_one_iff_num_lt_denom.mp hlt
    have hnat : x.num.natAbs ≤ x.den := by omega
    have hmono := natLog2_mono x.num.natAbs x.den (by omega) hnat
    omega

theorem roundHalfEven_le (m : ℚ) (N : Int) (h : m ≤ N) : roundHalfEven m ≤ N := by
  have hf : ⌊m⌋ ≤ N := by
    have : (⌊m⌋ : ℚ) ≤ N := (Int.floor_le m).trans h
    exact_mod_cast this
  have hstep : ¬ (m - ⌊m⌋ < 1 / 2) → ⌊m⌋ + 1 ≤ N := by
    intro hnot
    have h₁ : (⌊m⌋ : ℚ) < m := by
      have := not_lt.mp hnot
      linarith
    have h₂ : (⌊m⌋ : ℚ) < N := lt_of_lt_of_le h₁ h
    have h₃ : ⌊m⌋ < N := by exact_mod_cast h₂
    omega
  unfold roundHalfEven
  simp only
  split_ifs with h₁ h₂ h₃
  · exact hf
  · exact hstep h₁
  · exact hf
  · exact hstep h₁

theorem fround_le_half (p : Nat) (emin : Int) (hp : 1 ≤ p) (hemin : emin ≤ -1) (x : ℚ)
    (h : x ≤ 1 / 2) : fround p emin x ≤ 1 / 2 := by
  unfold fround
  split_ifs with hz hneg
  · norm_num
  · simp only
    have hpos := pow2_pos (max (floorLog2 (-x) - ((p : Int) - 1)) emin)
    have hm : x / pow2 (max (floorLog2 (-x) - ((p : Int) - 1)) emin) ≤ ((0 : Int) : ℚ) := by
      rw [Int.cast_zero]
      exact div_nonpos_of_nonpos_of_nonneg hneg.le hpos.le
    have hr := roundHalfEven_le _ 0 hm
    have hr' : (roundHalfEven (x / pow2 (max (floorLog2 (-x) - ((p : Int) - 1)) emin)) : ℚ)
        ≤ 0 := by exact_mod_cast hr
    have := mul_nonpos_of_nonpos_of_nonneg hr' hpos.le
    linarith
  · simp only
    have h0 : 0 < x := lt_of_le_of_ne (not_lt.mp hneg) (Ne.symm hz)
    have he := floorLog2_le_neg_one x h0 h
    have hk : max (floorLog2 x - ((p : Int) - 1)) emin ≤ -1 := by
      apply max_le
      · omega
      · exact hemin
    generalize max (floorLog2 x - ((p : Int) - 1)) emin = k at hk
    have hpos := pow2_pos k
    obtain ⟨j, hj⟩ : ∃ j : Nat, k = -((j : Int) + 1) := ⟨(-k - 1).toNat, by omega⟩
    have hpow : pow2 k = 1 / ((2 ^ (j + 1) : Nat) : ℚ) := by
      unfold pow2
      rw [if_neg (by omega)]
      have : (-k).toNat = j + 1 := by omega
      rw [this]
    have hhalf : (((2 ^ j : Nat) : Int) : ℚ) * pow2 k = 1 / 2 := by
      rw [hpow]
      push_cast
      rw [pow_succ]
      field_simp
    have hm : x / pow2 k ≤ (((2 ^ j : Nat) : Int) : ℚ) := by
      rw [div_le_iff₀ hpos, hhalf]
      exact h
    have hr := roundHalfEven_le _ _ hm
    have hr' : (roundHalfEven (x / pow2 k) : ℚ) ≤ (((2 ^ j : Nat) : Int) : ℚ) := by
      exact_mod_cast hr
    calc (roundHalfEven (x / pow2 k) : ℚ) * pow2 k
        ≤ (((2 ^ j : Nat) : Int) : ℚ) * pow2 k := mul_le_mul_of_nonneg_right hr' hpos.le
      _ = 1 / 2 := hhalf

theorem fsub64_self (t : ℚ) : fsub64 t t = 0 := by
  unfold fsub64 roundDouble fround
  rw [sub_self, if_pos rfl]

theorem fsub64_le_half (a b : ℚ) (h : a - b ≤ 1 / 2) : fsub64 a b ≤ 1 / 2 :=
  fround_le_half 53 (-1074) (by norm_num) (by norm_num) _ h

theorem FLOAT_0_05_eq : roundFloat (1 / 20) = FLOAT_0_05 := by
  decide!

/-- Known values of the two formats: 0.1 as a `double`, 1/3 as a `float`, a tie between two
subnormal `float` values, and a tie at the top of a binade. -/
theorem fround_examples :
    roundDouble (1 / 10) = 3602879701896397 / 36028797018963968
      ∧ roundFloat (1 / 3) = 11184811 / 33554432
      ∧ roundFloat (3 / 1427247692705959881058285969449495136382746624)
          = 1 / 356811923176489970264571492362373784095686656
      ∧ roundFloat (33554431 / 33554432) = 1
      ∧ roundFloat (-(5 / 2)) = -(5 / 2) := by
  decide!

/-! ## Lemmas on the renderer and the compile cycle -/

theorem SameControls.refl_controls (s : App) : SameControls s s := by
  constructor <;> rfl

theorem SameControls.trans_controls {s t u : App} (h₁ : SameControls s t) (h₂ : SameControls t u) :
    SameControls s u := by
  constructor
  · exact h₂.code_buffer.trans h₁.code_buffer
  · exact h₂.lastCode.trans h₁.lastCode
  · exact h₂.lastChangeTime.trans h₁.lastChangeTime
  · exact h₂.codeChanged.trans h₁.codeChanged
  · exact h₂.optionX.trans h₁.optionX
  · exact h₂.optionB.trans h₁.optionB
  · exact h₂.optionR.trans h₁.optionR
  · exact h₂.optionE.trans h₁.optionE
  · exact h₂.zoom.trans h₁.zoom
  · exact h₂.offsetX.trans h₁.offsetX
  · exact h₂.offsetY.trans h₁.offsetY
  · exact h₂.showLogs.trans h₁.showLogs

theorem compileCount_append (a b : List Event) :
    compileCount (a ++ b) = compileCount a + compileCount b := by
  simp [compileCount, List.filter_append]

theorem renderCount_append (a b : List Event) :
    renderCount (a ++ b) = renderCount a + renderCount b := by
  simp [renderCount, List.filter_append]

theorem render_sameControls (env : Env) (path : String) (z : ℚ) (s : App) :
    SameControls s (render_svg_with_librsvg env path z s).2 := by
  unfold render_svg_with_librsvg
  simp only
  split
  · constructor <;> rfl
  · split_ifs <;> constructor <;> rfl

theorem render_files (env : Env) (path : String) (z : ℚ) (s : App) :
    (render_svg_with_librsvg env path z s).2.world.files = s.world.files
      ∧ (render_svg_with_librsvg env path z s).2.svgTexture = s.svgTexture := by
  unfold render_svg_with_librsvg
  simp only
  split
  · exact ⟨rfl, rfl⟩
  · split_ifs <;> exact ⟨rfl, rfl⟩

theorem render_trace (env : Env) (path : String) (z : ℚ) (s : App) :
    ∃ extra, (render_svg_with_librsvg env path z s).2.world.trace = s.world.trace ++ extra
      ∧ compileCount extra = 0 ∧ renderCount extra = 1 := by
  unfold render_svg_with_librsvg
  simp only
  split
  · exact ⟨[Event.rsvgLoad path], rfl, rfl, rfl⟩
  · split_ifs
    · exact ⟨[Event.rsvgLoad path], rfl, rfl, rfl⟩
    · exact ⟨[Event.rsvgLoad path], rfl, rfl, rfl⟩
    · exact ⟨[Event.rsvgLoad path], rfl, rfl, rfl⟩
    · exact ⟨[Event.rsvgLoad path], rfl, rfl, rfl⟩
    · exact ⟨[Event.rsvgLoad path, Event.glGenTextures
        (env.glGenTextures (s.world.trace ++ [Event.rsvgLoad path]) s.world.textures)],
        by simp [World.log], rfl, rfl⟩

theorem render_error (env : Env) (path : String) (z : ℚ) (s : App)
    (h : (render_svg_with_librsvg env path z s).1.toBool = false) :
    (render_svg_with_librsvg env path z s).2.world.trace = s.world.trace ++ [Event.rsvgLoad path]
      ∧ (render_svg_with_librsvg env path z s).2.world.textures = s.world.textures := by
  unfold render_svg_with_librsvg at h ⊢
  simp only at h ⊢
  split
  · exact ⟨rfl, rfl⟩
  · rename_i heq
    rw [heq] at h
    simp only at h
    split_ifs at h ⊢
    · exact ⟨rfl, rfl⟩
    · exact ⟨rfl, rfl⟩
    · exact ⟨rfl, rfl⟩
    · exact ⟨rfl, rfl⟩
    · simp [Except.toBool] at h

theorem dropTexture_sameControls (s : App) : SameControls s (dropTexture s) := by
  unfold dropTexture
  split_ifs <;> constructor <;> rfl

theorem dropTexture_trace (s : App) :
    ∃ extra, (dropTexture s).world.trace = s.world.trace ++ extra
      ∧ compileCount extra = 0 ∧ renderCount extra = 0 := by
  unfold dropTexture
  split_ifs
  · exact ⟨[Event.glDeleteTextures s.svgTexture], rfl, rfl, rfl⟩
  · exact ⟨[], by simp, rfl, rfl⟩

theorem reRenderSVG_sameControls (env : Env) (s : App) :
    SameControls s (reRenderSVG env s) := by
  have h₁ := dropTexture_sameControls s
  have h₂ := render_sameControls env svgPath (dropTexture s).zoom (dropTexture s)
  have h := h₁.trans_controls h₂
  unfold reRenderSVG
  simp only
  split
  · rename_i heq
    rw [heq] at h
    constructor
    · exact h.code_buffer
    · exact h.lastCode
    · exact h.lastChangeTime
    · exact h.codeChanged
    · exact h.optionX
    · exact h.optionB
    · exact h.optionR
    · exact h.optionE
    · exact h.zoom
    · exact h.offsetX
    · exact h.offsetY
    · exact h.showLogs
  · rename_i heq
    rw [heq] at h
    constructor
    · exact h.code_buffer
    · exact h.lastCode
    · exact h.lastChangeTime
    · exact h.codeChanged
    · exact h.optionX
    · exact h.optionB
    · exact h.optionR
    · exact h.optionE
    · exact h.zoom
    · exact h.offsetX
    · exact h.offsetY
    · exact h.showLogs

theorem reRenderSVG_trace (env : Env) (s : App) :
    ∃ extra, (reRenderSVG env s).world.trace = s.world.trace ++ extra
      ∧ compileCount extra = 0 ∧ renderCount extra = 1 := by
  obtain ⟨e₁, h₁, c₁, r₁⟩ := dropTexture_trace s
  obtain ⟨e₂, h₂, c₂, r₂⟩ := render_trace env svgPath (dropTexture s).zoom (dropTexture s)
  unfold reRenderSVG
  simp only
  split
  · rename_i heq
    rw [heq] at h₂
    simp only at h₂
    refine ⟨e₁ ++ e₂, ?_, ?_, ?_⟩
    · simp only [h₂, h₁, List.append_assoc]
    · rw [compileCount_append, c₁, c₂]
    · rw [renderCount_append, r₁, r₂]
  · rename_i heq
    rw [heq] at h₂
    simp only at h₂
    refine ⟨e₁ ++ e₂ ++ [Event.stderr "Erreur rendu SVG: "], ?_, ?_, ?_⟩
    · simp only [World.log, h₂, h₁, List.append_assoc]
    · rw [compileCount_append, compileCount_append, c₁, c₂]; rfl
    · rw [renderCount_append, renderCount_append, r₁, r₂]; rfl

theorem writeFile_trace (env : Env) (path content : String) (w : World) :
    (writeFile env path content w).trace = w.trace ++ [Event.write path content] := rfl

theorem generate_svg_trace (env : Env) (dotContent : String) (w : World) :
    ∃ extra, (generate_svg_from_dot env dotContent w).2.trace = w.trace ++ extra
      ∧ compileCount extra = 0 ∧ renderCount extra = 0 := by
  unfold generate_svg_from_dot
  split_ifs
  · exact ⟨[], by simp, rfl, rfl⟩
  · simp only [system]
    split_ifs
    · exact ⟨[Event.write "/tmp/ast.dot" dotContent, Event.system dotCmd],
        by simp [dotCmd, writeFile_trace], rfl, rfl⟩
    · exact ⟨[Event.write "/tmp/ast.dot" dotContent, Event.system dotCmd, Event.system mvCmd],
        by simp [dotCmd, mvCmd, writeFile_trace], rfl, rfl⟩

theorem doCompile_eq (env : Env) (s : App) :
    doCompile env s =
      (let out := (env.tc s.world.trace
          (compiler_args s.optionX s.optionB s.optionR s.optionE) (cstr s.code_buffer))
       let s₁ : App := { s with
          world := s.world.log (Event.exec
            (compiler_args s.optionX s.optionB s.optionR s.optionE) (cstr s.code_buffer)),
          logOutput := s.logOutput ++ (out.err ++ "\n") }
       if out.out ≠ "" ∧ (generate_svg_from_dot env out.out s₁.world).1 = true then
         reRenderSVG env { s₁ with world := (generate_svg_from_dot env out.out s₁.world).2 }
       else if out.out ≠ "" then
         { s₁ with world :=
            (generate_svg_from_dot env out.out s₁.world).2.log (Event.stderr keepOldImage) }
       else { s₁ with world := s₁.world.log (Event.stderr keepOldImage) }) := by
  unfold doCompile run_compiler_with_input
  simp only
  split_ifs <;> first | rfl | (exfalso; tauto)

theorem doCompile_sameControls (env : Env) (s : App) : SameControls s (doCompile env s) := by
  rw [doCompile_eq]
  simp only
  split_ifs
  · exact SameControls.trans_controls (by constructor <;> rfl) (reRenderSVG_sameControls env _)
  · constructor <;> rfl
  · constructor <;> rfl

theorem reRenderSVG_counts (env : Env) (s : App) :
    compileCount (reRenderSVG env s).world.trace = compileCount s.world.trace
      ∧ renderCount (reRenderSVG env s).world.trace = renderCount s.world.trace + 1 := by
  obtain ⟨e, h, c, r⟩ := reRenderSVG_trace env s
  rw [h, compileCount_append, renderCount_append, c, r]
  exact ⟨rfl, rfl⟩

theorem generate_svg_counts (env : Env) (dotContent : String) (w : World) :
    compileCount (generate_svg_from_dot env dotContent w).2.trace = compileCount w.trace
      ∧ renderCount (generate_svg_from_dot env dotContent w).2.trace = renderCount w.trace := by
  obtain ⟨e, h, c, r⟩ := generate_svg_trace env dotContent w
  rw [h, compileCount_append, renderCount_append, c, r]
  exact ⟨rfl, rfl⟩

theorem log_compileCount (w : World) (e : Event) :
    compileCount (w.log e).trace
      = compileCount w.trace + compileCount [e] := by
  simp only [World.log, compileCount_append]

theorem log_renderCount (w : World) (e : Event) :
    renderCount (w.log e).trace
      = renderCount w.trace + renderCount [e] := by
  simp only [World.log, renderCount_append]

theorem doCompile_compileCount (env : Env) (s : App) :
    compileCount (doCompile env s).world.trace = compileCount s.world.trace + 1 := by
  rw [doCompile_eq]
  simp only
  split_ifs
  · rw [(reRenderSVG_counts env _).1, (generate_svg_counts env _ _).1, log_compileCount]
    rfl
  · rw [log_compileCount, (generate_svg_counts env _ _).1, log_compileCount]
    rfl
  · rw [log_compileCount, log_compileCount]
    rfl

theorem generate_svg_textures (env : Env) (dotContent : String) (w : World) :
    (generate_svg_from_dot env dotContent w).2.textures = w.textures := by
  unfold generate_svg_from_dot
  split_ifs
  · rfl
  · simp only [system]
    split_ifs <;> rfl

theorem stdMin_eq (a b : ℚ) : stdMin a b = min a b := by
  unfold stdMin
  split_ifs with h
  · exact (min_eq_right h.le).symm
  · exact (min_eq_left (not_lt.mp h)).symm

theorem stdClamp_eq (v lo hi : ℚ) (h : lo ≤ hi) : stdClamp v lo hi = max lo (min hi v) := by
  unfold stdClamp
  split_ifs with h₁ h₂
  · rw [max_eq_left]
    exact (min_le_right _ _).trans h₁.le
  · rw [min_eq_left h₂.le, max_eq_right h]
  · rw [min_eq_right (not_lt.mp h₂), max_eq_right (not_lt.mp h₁)]

theorem stdClamp_bounds (v : ℚ) :
    1 / 20 ≤ stdClamp v FLOAT_0_05 (7 / 2) ∧ stdClamp v FLOAT_0_05 (7 / 2) ≤ 7 / 2 := by
  have hlo : (1 : ℚ) / 20 ≤ FLOAT_0_05 := by
    unfold FLOAT_0_05
    norm_num
  have hhi : FLOAT_0_05 ≤ (7 : ℚ) / 2 := by
    unfold FLOAT_0_05
    norm_num
  unfold stdClamp
  split_ifs with h₁ h₂
  · exact ⟨hlo, hhi⟩
  · norm_num
  · exact ⟨hlo.trans (not_lt.mp h₁), not_lt.mp h₂⟩

theorem loadFile_zoom (env : Env) (content : List Nat) (s : App) :
    (loadFile env content s).zoom = s.zoom := by
  unfold loadFile
  exact (doCompile_sameControls env _).zoom

theorem compilerButton_zoom (env : Env) (inp : FrameInput) (s : App) :
    (compilerButton env inp s).zoom = s.zoom := by
  unfold compilerButton
  split_ifs
  · exact (doCompile_sameControls env s).zoom
  · rfl

theorem openFileButton_zoom (env : Env) (inp : FrameInput) (s : App) :
    (openFileButton env inp s).zoom = s.zoom := by
  unfold openFileButton
  split
  · exact loadFile_zoom env _ s
  · rfl

theorem optionItemX_eq (env : Env) (inp : FrameInput) (s : App) :
    optionItemX env inp s
      = if inp.itemX then doCompile env { s with optionX := !s.optionX } else s := by
  unfold optionItemX
  cases inp.itemX <;> cases h : s.optionX <;> simp

theorem optionItemX_zoom (env : Env) (inp : FrameInput) (s : App) :
    (optionItemX env inp s).zoom = s.zoom := by
  rw [optionItemX_eq]
  split_ifs
  · exact (doCompile_sameControls env _).zoom
  · rfl

theorem optionItemB_eq (env : Env) (inp : FrameInput) (s : App) :
    optionItemB env inp s
      = if inp.itemB then doCompile env { s with optionB := !s.optionB } else s := by
  unfold optionItemB
  cases inp.itemB <;> cases h : s.optionB <;> simp

theorem optionItemB_zoom (env : Env) (inp : FrameInput) (s : App) :
    (optionItemB env inp s).zoom = s.zoom := by
  rw [optionItemB_eq]
  split_ifs
  · exact (doCompile_sameControls env _).zoom
  · rfl

theorem optionItemR_eq (env : Env) (inp : FrameInput) (s : App) :
    optionItemR env inp s
      = if inp.itemR then doCompile env { s with optionR := !s.optionR } else s := by
  unfold optionItemR
  cases inp.itemR <;> cases h : s.optionR <;> simp

theorem optionItemR_zoom (env : Env) (inp : FrameInput) (s : App) :
    (optionItemR env inp s).zoom = s.zoom := by
  rw [optionItemR_eq]
  split_ifs
  · exact (doCompile_sameControls env _).zoom
  · rfl

theorem optionItemE_eq (env : Env) (inp : FrameInput) (s : App) :
    optionItemE env inp s
      = if inp.itemE then doCompile env { s with optionE := !s.optionE } else s := by
  unfold optionItemE
  cases inp.itemE <;> cases h : s.optionE <;> simp

theorem optionItemE_zoom (env : Env) (inp : FrameInput) (s : App) :
    (optionItemE env inp s).zoom = s.zoom := by
  rw [optionItemE_eq]
  split_ifs
  · exact (doCompile_sameControls env _).zoom
  · rfl

theorem logsButton_zoom (inp : FrameInput) (s : App) :
    (logsButton inp s).zoom = s.zoom := by
  unfold logsButton
  split_ifs <;> rfl

theorem menuBar_zoom (env : Env) (inp : FrameInput) (s : App) :
    (menuBar env inp s).zoom = s.zoom := by
  unfold menuBar
  simp only
  rw [logsButton_zoom, optionItemE_zoom, optionItemR_zoom, optionItemB_zoom, optionItemX_zoom,
    openFileButton_zoom, compilerButton_zoom]

theorem frame_eq (env : Env) (inp : FrameInput) (s : App) :
    frame env inp s
      = logsWindow inp (resetButton env inp (zoomSlider env inp (pan inp (editor inp
          (debounce env inp.time (detectChange inp.time (menuBar env inp s))))))) := rfl

theorem frame_zoom (env : Env) (inp : FrameInput) (s : App)
    (hs : 1 / 20 ≤ s.zoom ∧ s.zoom ≤ 7 / 2)
    (hv : ∀ v, inp.slider = some v → 1 / 20 ≤ v ∧ v ≤ 7 / 2) :
    1 / 20 ≤ (frame env inp s).zoom ∧ (frame env inp s).zoom ≤ 7 / 2 := by
  have h₁ : (debounce env inp.time (detectChange inp.time (menuBar env inp s))).zoom
      = s.zoom := by
    unfold debounce detectChange
    split_ifs
    · rw [(doCompile_sameControls env _).zoom]
      exact menuBar_zoom env inp s
    · exact menuBar_zoom env inp s
    · rw [(doCompile_sameControls env _).zoom]
      exact menuBar_zoom env inp s
    · exact menuBar_zoom env inp s
  have h₂ : (pan inp (editor inp
      (debounce env inp.time (detectChange inp.time (menuBar env inp s))))).zoom = s.zoom := by
    unfold pan editor
    split <;> split <;> exact h₁
  rw [← h₂] at hs
  rw [frame_eq]
  generalize (pan inp (editor inp
      (debounce env inp.time (detectChange inp.time (menuBar env inp s))))) = s₁ at hs ⊢
  have h₃ : 1 / 20 ≤ (zoomSlider env inp s₁).zoom ∧ (zoomSlider env inp s₁).zoom ≤ 7 / 2 := by
    unfold zoomSlider
    split
    · rename_i v hv'
      rw [(reRenderSVG_sameControls env _).zoom]
      exact hv v hv'
    · exact hs
  have h₄ : 1 / 20 ≤ (resetButton env inp (zoomSlider env inp s₁)).zoom
      ∧ (resetButton env inp (zoomSlider env inp s₁)).zoom ≤ 7 / 2 := by
    unfold resetButton reset
    simp only
    split_ifs
    · rw [(reRenderSVG_sameControls env _).zoom]
      exact stdClamp_bounds _
    · exact h₃
    · exact h₃
  unfold logsWindow
  split_ifs
  · exact h₄
  · exact h₄

/-! ## Lemmas on the editor buffer -/

theorem cstr_append_zero (l r : List Nat) (h : ∀ b ∈ l, b ≠ 0) : cstr (l ++ 0 :: r) = l := by
  unfold cstr
  rw [List.takeWhile_append_of_pos (by intro a ha; simpa using h a ha)]
  simp

theorem replicate_zero_append (k : Nat) :
    ∃ r, List.replicate k 0 ++ [(0 : Nat)] = 0 :: r := by
  cases k with
  | zero => exact ⟨[], rfl⟩
  | succ k => exact ⟨List.replicate k 0 ++ [0], by rw [List.replicate_succ]; rfl⟩

theorem load_buffer (buf content : List Nat) (n : Nat) (hlen : buf.length = n + 1)
    (hnul : ∀ b ∈ content, b ≠ 0) :
    (strncpy buf (content ++ [0]) n).set n 0
      = content.take n ++ (List.replicate (n - content.length) 0 ++ [0]) := by
  have hc : cstr (content ++ [0]) = content := cstr_append_zero content [] hnul
  unfold strncpy
  rw [hc]
  have hlen₁ : (content.take n ++ List.replicate (n - content.length) 0).length = n := by
    simp only [List.length_append, List.length_take, List.length_replicate]
    omega
  rw [List.set_append_right _ _ (by rw [hlen₁]), hlen₁, Nat.sub_self]
  obtain ⟨x, hx⟩ : ∃ x, buf.drop n = [x] := by
    have h₁ : (buf.drop n).length = 1 := by
      rw [List.length_drop, hlen]
      omega
    exact List.length_eq_one.mp h₁
  rw [hx]
  simp

theorem doCompile_trace_head (env : Env) (s : App) :
    ∃ rest, (doCompile env s).world.trace
      = s.world.trace ++ Event.exec (compiler_args s.optionX s.optionB s.optionR s.optionE)
          (cstr s.code_buffer) :: rest := by
  rw [doCompile_eq]
  simp only
  split_ifs
  · obtain ⟨e₁, h₁, -⟩ := reRenderSVG_trace env
      { s with
        world := (generate_svg_from_dot env (env.tc s.world.trace
          (compiler_args s.optionX s.optionB s.optionR s.optionE) (cstr s.code_buffer)).out
          (s.world.log (Event.exec (compiler_args s.optionX s.optionB s.optionR s.optionE)
            (cstr s.code_buffer)))).2,
        logOutput := s.logOutput ++ ((env.tc s.world.trace
          (compiler_args s.optionX s.optionB s.optionR s.optionE) (cstr s.code_buffer)).err
            ++ "\n") }
    obtain ⟨e₂, h₂, -⟩ := generate_svg_trace env (env.tc s.world.trace
          (compiler_args s.optionX s.optionB s.optionR s.optionE) (cstr s.code_buffer)).out
          (s.world.log (Event.exec (compiler_args s.optionX s.optionB s.optionR s.optionE)
            (cstr s.code_buffer)))
    rw [h₁]
    simp only
    rw [h₂]
    exact ⟨e₂ ++ e₁, by simp [World.log]⟩
  · obtain ⟨e₂, h₂, -⟩ := generate_svg_trace env (env.tc s.world.trace
          (compiler_args s.optionX s.optionB s.optionR s.optionE) (cstr s.code_buffer)).out
          (s.world.log (Event.exec (compiler_args s.optionX s.optionB s.optionR s.optionE)
            (cstr s.code_buffer)))
    simp only [World.log] at h₂ ⊢
    rw [h₂]
    exact ⟨e₂ ++ [Event.stderr keepOldImage], by simp⟩
  · exact ⟨[Event.stderr keepOldImage], by simp [World.log]⟩

/-! ## Lemmas on the frame and the debounce logic -/

theorem SameSnapshot.refl_snapshot (s : App) : SameSnapshot s s := ⟨rfl, rfl, rfl⟩

theorem SameSnapshot.trans_snapshot {s t u : App} (h₁ : SameSnapshot s t) (h₂ : SameSnapshot t u) :
    SameSnapshot s u :=
  ⟨h₂.lastCode.trans h₁.lastCode, h₂.lastChangeTime.trans h₁.lastChangeTime,
    h₂.codeChanged.trans h₁.codeChanged⟩

theorem SameControls.snapshot {s t : App} (h : SameControls s t) : SameSnapshot s t :=
  ⟨h.lastCode, h.lastChangeTime, h.codeChanged⟩

theorem loadFile_snapshot (env : Env) (content : List Nat) (s : App) :
    SameSnapshot s (loadFile env content s) := by
  unfold loadFile
  refine SameSnapshot.trans_snapshot ?_ (doCompile_sameControls env _).snapshot
  exact ⟨rfl, rfl, rfl⟩

theorem loadFile_compileCount (env : Env) (content : List Nat) (s : App) :
    compileCount (loadFile env content s).world.trace = compileCount s.world.trace + 1 := by
  unfold loadFile
  rw [doCompile_compileCount]

theorem compilerButton_snapshot (env : Env) (inp : FrameInput) (s : App) :
    SameSnapshot s (compilerButton env inp s) := by
  unfold compilerButton
  split_ifs
  · exact (doCompile_sameControls env s).snapshot
  · exact SameSnapshot.refl_snapshot s

theorem compilerButton_compileCount (env : Env) (inp : FrameInput) (s : App) :
    compileCount (compilerButton env inp s).world.trace
      = compileCount s.world.trace + (if inp.compilerButton then 1 else 0) := by
  unfold compilerButton
  split_ifs
  · exact doCompile_compileCount env s
  · rfl

theorem openFileButton_snapshot (env : Env) (inp : FrameInput) (s : App) :
    SameSnapshot s (openFileButton env inp s) := by
  unfold openFileButton
  split
  · exact loadFile_snapshot env _ s
  · exact SameSnapshot.refl_snapshot s

theorem openFileButton_compileCount (env : Env) (inp : FrameInput) (s : App) :
    compileCount (openFileButton env inp s).world.trace
      = compileCount s.world.trace + (if inp.openFile.loads then 1 else 0) := by
  unfold openFileButton
  cases h : inp.openFile
  · rfl
  · rfl
  · rfl
  · exact loadFile_compileCount env _ s

theorem optionItemX_snapshot (env : Env) (inp : FrameInput) (s : App) :
    SameSnapshot s (optionItemX env inp s) := by
  rw [optionItemX_eq]
  split_ifs
  · refine SameSnapshot.trans_snapshot ?_ (doCompile_sameControls env _).snapshot
    exact ⟨rfl, rfl, rfl⟩
  · exact SameSnapshot.refl_snapshot s

theorem optionItemB_snapshot (env : Env) (inp : FrameInput) (s : App) :
    SameSnapshot s (optionItemB env inp s) := by
  rw [optionItemB_eq]
  split_ifs
  · refine SameSnapshot.trans_snapshot ?_ (doCompile_sameControls env _).snapshot
    exact ⟨rfl, rfl, rfl⟩
  · exact SameSnapshot.refl_snapshot s

theorem optionItemR_snapshot (env : Env) (inp : FrameInput) (s : App) :
    SameSnapshot s (optionItemR env inp s) := by
  rw [optionItemR_eq]
  split_ifs
  · refine SameSnapshot.trans_snapshot ?_ (doCompile_sameControls env _).snapshot
    exact ⟨rfl, rfl, rfl⟩
  · exact SameSnapshot.refl_snapshot s

theorem optionItemE_snapshot (env : Env) (inp : FrameInput) (s : App) :
    SameSnapshot s (optionItemE env inp s) := by
  rw [optionItemE_eq]
  split_ifs
  · refine SameSnapshot.trans_snapshot ?_ (doCompile_sameControls env _).snapshot
    exact ⟨rfl, rfl, rfl⟩
  · exact SameSnapshot.refl_snapshot s

theorem optionItemX_compileCount (env : Env) (inp : FrameInput) (s : App) :
    compileCount (optionItemX env inp s).world.trace
      = compileCount s.world.trace + (if inp.itemX then 1 else 0) := by
  rw [optionItemX_eq]
  split_ifs
  · exact doCompile_compileCount env _
  · rfl

theorem optionItemB_compileCount (env : Env) (inp : FrameInput) (s : App) :
    compileCount (optionItemB env inp s).world.trace
      = compileCount s.world.trace + (if inp.itemB then 1 else 0) := by
  rw [optionItemB_eq]
  split_ifs
  · exact doCompile_compileCount env _
  · rfl

theorem optionItemR_compileCount (env : Env) (inp : FrameInput) (s : App) :
    compileCount (optionItemR env inp s).world.trace
      = compileCount s.world.trace + (if inp.itemR then 1 else 0) := by
  rw [optionItemR_eq]
  split_ifs
  · exact doCompile_compileCount env _
  · rfl

theorem optionItemE_compileCount (env : Env) (inp : FrameInput) (s : App) :
    compileCount (optionItemE env inp s).world.trace
      = compileCount s.world.trace + (if inp.itemE then 1 else 0) := by
  rw [optionItemE_eq]
  split_ifs
  · exact doCompile_compileCount env _
  · rfl

theorem logsButton_snapshot (inp : FrameInput) (s : App) :
    SameSnapshot s (logsButton inp s) ∧ (logsButton inp s).world = s.world
      ∧ (logsButton inp s).code_buffer = s.code_buffer := by
  unfold logsButton
  split_ifs
  · exact ⟨⟨rfl, rfl, rfl⟩, rfl, rfl⟩
  · exact ⟨⟨rfl, rfl, rfl⟩, rfl, rfl⟩

theorem menuBar_snapshot (env : Env) (inp : FrameInput) (s : App) :
    SameSnapshot s (menuBar env inp s) := by
  unfold menuBar
  simp only
  exact (compilerButton_snapshot env inp s).trans_snapshot <|
    (openFileButton_snapshot env inp _).trans_snapshot <|
    (optionItemX_snapshot env inp _).trans_snapshot <|
    (optionItemB_snapshot env inp _).trans_snapshot <|
    (optionItemR_snapshot env inp _).trans_snapshot <|
    (optionItemE_snapshot env inp _).trans_snapshot (logsButton_snapshot inp _).1

theorem menuBar_compileCount (env : Env) (inp : FrameInput) (s : App) :
    compileCount (menuBar env inp s).world.trace
      = compileCount s.world.trace + manualTriggers inp := by
  unfold menuBar manualTriggers
  simp only
  rw [(logsButton_snapshot inp _).2.1, optionItemE_compileCount, optionItemR_compileCount,
    optionItemB_compileCount, optionItemX_compileCount, openFileButton_compileCount,
    compilerButton_compileCount]
  omega

/-- The steps of a frame that follow the debounce logic leave its variables and the number of
compiler executions alone; the buffer changes only by an edit. -/
theorem afterDebounce (env : Env) (inp : FrameInput) (s : App) :
    SameSnapshot s (logsWindow inp (resetButton env inp (zoomSlider env inp (pan inp
        (editor inp s)))))
      ∧ compileCount (logsWindow inp (resetButton env inp (zoomSlider env inp (pan inp
        (editor inp s))))).world.trace = compileCount s.world.trace
      ∧ (inp.edit = none →
          (logsWindow inp (resetButton env inp (zoomSlider env inp (pan inp
            (editor inp s))))).code_buffer = s.code_buffer) := by
  have h₁ : SameSnapshot s (editor inp s) ∧ (editor inp s).world = s.world
      ∧ (inp.edit = none → (editor inp s).code_buffer = s.code_buffer) := by
    unfold editor
    split
    · rename_i heq
      exact ⟨⟨rfl, rfl, rfl⟩, rfl, fun h => by rw [h] at heq; cases heq⟩
    · exact ⟨⟨rfl, rfl, rfl⟩, rfl, fun _ => rfl⟩
  have h₂ : SameSnapshot (editor inp s) (pan inp (editor inp s))
      ∧ (pan inp (editor inp s)).world = (editor inp s).world
      ∧ (pan inp (editor inp s)).code_buffer = (editor inp s).code_buffer := by
    unfold pan
    split <;> exact ⟨⟨rfl, rfl, rfl⟩, rfl, rfl⟩
  generalize pan inp (editor inp s) = s₂ at h₂
  generalize editor inp s = s₁ at h₁ h₂
  have h₃ : SameSnapshot s₂ (zoomSlider env inp s₂)
      ∧ compileCount (zoomSlider env inp s₂).world.trace = compileCount s₂.world.trace
      ∧ (zoomSlider env inp s₂).code_buffer = s₂.code_buffer := by
    unfold zoomSlider
    split
    · refine ⟨SameSnapshot.trans_snapshot ?_ (reRenderSVG_sameControls env _).snapshot,
        (reRenderSVG_counts env _).1, (reRenderSVG_sameControls env _).code_buffer⟩
      exact ⟨rfl, rfl, rfl⟩
    · exact ⟨SameSnapshot.refl_snapshot _, rfl, rfl⟩
  generalize zoomSlider env inp s₂ = s₃ at h₃
  have h₄ : SameSnapshot s₃ (resetButton env inp s₃)
      ∧ compileCount (resetButton env inp s₃).world.trace = compileCount s₃.world.trace
      ∧ (resetButton env inp s₃).code_buffer = s₃.code_buffer := by
    unfold resetButton reset
    simp only
    split_ifs
    · refine ⟨SameSnapshot.trans_snapshot ?_ (reRenderSVG_sameControls env _).snapshot,
        (reRenderSVG_counts env _).1, (reRenderSVG_sameControls env _).code_buffer⟩
      exact ⟨rfl, rfl, rfl⟩
    · refine ⟨⟨rfl, rfl, rfl⟩, ?_, rfl⟩
      simp only
      rw [log_compileCount]
      rfl
    · exact ⟨SameSnapshot.refl_snapshot _, rfl, rfl⟩
  generalize resetButton env inp s₃ = s₄ at h₄
  have h₅ : SameSnapshot s₄ (logsWindow inp s₄) ∧ (logsWindow inp s₄).world = s₄.world
      ∧ (logsWindow inp s₄).code_buffer = s₄.code_buffer := by
    unfold logsWindow
    split_ifs <;> exact ⟨⟨rfl, rfl, rfl⟩, rfl, rfl⟩
  refine ⟨h₁.1.trans_snapshot (h₂.1.trans_snapshot (h₃.1.trans_snapshot (h₄.1.trans_snapshot h₅.1))), ?_, ?_⟩
  · rw [h₅.2.1, h₄.2.1, h₃.2.1, h₂.2.1, h₁.2.1]
  · intro he
    rw [h₅.2.2, h₄.2.2, h₃.2.2, h₂.2.2, h₁.2.2 he]

/-- The debounce logic of one frame, in terms of its log entry: a frame that detects a change
records its time, marks the text dirty and cannot fire; a frame that detects none fires
exactly when the text is dirty and the `double` difference between its time and the time of
the last change is above `COMPILE_DELAY`, which clears the dirty flag. -/
theorem frame_debounce (env : Env) (inp : FrameInput) (s : App) :
    (frameLog env inp s).debounceFired
        = (!(frameLog env inp s).changeDetected && s.codeChanged
            && decide (fsub64 inp.time s.lastChangeTime > COMPILE_DELAY))
      ∧ (frame env inp s).lastChangeTime
        = (if (frameLog env inp s).changeDetected then inp.time else s.lastChangeTime)
      ∧ (frame env inp s).codeChanged
        = ((frameLog env inp s).changeDetected
            || (s.codeChanged && !(frameLog env inp s).debounceFired))
      ∧ (frameLog env inp s).compiles
        = manualTriggers inp + (if (frameLog env inp s).debounceFired then 1 else 0) := by
  have hm := menuBar_snapshot env inp s
  have hmc := menuBar_compileCount env inp s
  have hframe : frame env inp s
      = logsWindow inp (resetButton env inp (zoomSlider env inp (pan inp (editor inp
          (debounce env inp.time (detectChange inp.time (menuBar env inp s))))))) := rfl
  have ha := afterDebounce env inp (debounce env inp.time (detectChange inp.time
    (menuBar env inp s)))
  rw [← hframe] at ha
  obtain ⟨ha₁, ha₂, -⟩ := ha
  have hlog₁ : (frameLog env inp s).changeDetected = textDiffers (menuBar env inp s) := rfl
  have hlog₂ : (frameLog env inp s).debounceFired
      = debounceDue inp.time (detectChange inp.time (menuBar env inp s)) := rfl
  have hlog₃ : (frameLog env inp s).compiles
      = compileCount (frame env inp s).world.trace - compileCount s.world.trace := rfl
  rw [hlog₁, hlog₂, hlog₃, ha₁.lastChangeTime, ha₁.codeChanged, ha₂]
  generalize menuBar env inp s = m at hm hmc
  have hself : ¬ (fsub64 inp.time inp.time > COMPILE_DELAY) := by
    rw [fsub64_self]
    unfold COMPILE_DELAY
    norm_num
  by_cases hd : textDiffers m = true
  · have hdet : detectChange inp.time m
        = { m with lastCode := cstr m.code_buffer, codeChanged := true,
                   lastChangeTime := inp.time } := by
      unfold detectChange
      rw [if_pos hd]
    have hdue : debounceDue inp.time (detectChange inp.time m) = false := by
      rw [hdet]
      unfold debounceDue
      simp only [Bool.true_and, decide_eq_false_iff_not]
      exact hself
    have hdeb : debounce env inp.time (detectChange inp.time m) = detectChange inp.time m := by
      unfold debounce
      rw [hdue]
      rfl
    rw [hdue, hdeb, hd, hdet]
    simp only [Bool.not_true, Bool.false_and, if_true, Bool.true_or, Bool.false_eq_true,
      if_false, add_zero]
    refine ⟨trivial, trivial, trivial, ?_⟩
    rw [hmc]
    omega
  · have hd' : textDiffers m = false := by simpa using hd
    have hdet : detectChange inp.time m = m := by
      unfold detectChange
      rw [if_neg hd]
    rw [hdet, hd']
    have hdue : debounceDue inp.time m
        = (s.codeChanged && decide (fsub64 inp.time s.lastChangeTime > COMPILE_DELAY)) := by
      unfold debounceDue
      rw [hm.codeChanged, hm.lastChangeTime]
    simp only [Bool.not_false, Bool.true_and, Bool.false_eq_true, if_false, Bool.false_or]
    refine ⟨hdue, ?_, ?_, ?_⟩
    · unfold debounce
      split_ifs
      · rw [(doCompile_sameControls env _).lastChangeTime]
        exact hm.lastChangeTime
      · exact hm.lastChangeTime
    · unfold debounce
      split_ifs with hfire
      · rw [(doCompile_sameControls env _).codeChanged, hfire]
        simp
      · have hfire' : debounceDue inp.time m = false := by simpa using hfire
        rw [hfire', hm.codeChanged]
        simp
    · unfold debounce
      split_ifs with hfire
      · rw [doCompile_compileCount]
        simp only
        rw [hmc]
        omega
      · rw [hmc]
        omega

theorem run_append (env : Env) (a b : List FrameInput) (s : App) :
    run env s (a ++ b) = run env (run env s a) b := by
  induction a generalizing s with
  | nil => rfl
  | cons f rest ih => exact ih (frame env f s)

theorem runLog_append (env : Env) (a b : List FrameInput) (s : App) :
    runLog env s (a ++ b) = runLog env s a ++ runLog env (run env s a) b := by
  induction a generalizing s with
  | nil => rfl
  | cons f rest ih =>
    show frameLog env f s :: runLog env (frame env f s) (rest ++ b) = _
    rw [ih]
    rfl

theorem runLog_times (env : Env) (fs : List FrameInput) (s : App) :
    (runLog env s fs).map (fun l => l.time) = fs.map (fun f => f.time) := by
  induction fs generalizing s with
  | nil => rfl
  | cons f rest ih =>
    show f.time :: (runLog env (frame env f s) rest).map (fun l => l.time) = _
    rw [ih]
    rfl

theorem runLog_length (env : Env) (fs : List FrameInput) (s : App) :
    (runLog env s fs).length = fs.length := by
  have h := congrArg List.length (runLog_times env fs s)
  simpa using h

theorem mem_changeTimes (log : List FrameLog) (t : ℚ) :
    t ∈ changeTimes log ↔ ∃ l ∈ log, l.changeDetected = true ∧ l.time = t := by
  simp [changeTimes, and_assoc]

theorem changeTimes_cons (x : FrameLog) (log : List FrameLog) :
    changeTimes (x :: log)
      = if x.changeDetected then x.time :: changeTimes log else changeTimes log := by
  unfold changeTimes
  by_cases h : x.changeDetected = true
  · simp [h]
  · simp [h]

theorem map_eq_replicate_of_forall {α β : Type} (f : α → β) (c : β) (l : List α)
    (h : ∀ x ∈ l, f x = c) : l.map f = List.replicate l.length c := by
  induction l with
  | nil => rfl
  | cons a rest ih =>
    rw [List.map_cons, List.length_cons, List.replicate_succ, h a (List.mem_cons_self _ _),
      ih (fun x hx => h x (List.mem_cons_of_mem _ hx))]

/-- During a burst, up to and including the frame `last` of its last detected change, the
debounce logic does not fire. -/
theorem burst_no_fire (env : Env) (last : FrameInput) (burst : List FrameInput) (s : App)
    (hstart : s.codeChanged = true →
      (∃ f rest, burst ++ [last] = f :: rest ∧ (frameLog env f s).changeDetected = true)
        ∨ List.Chain (fun a b => b ≤ a + COMPILE_DELAY) s.lastChangeTime
            (changeTimes (runLog env s (burst ++ [last]))))
    (hgaps : List.Chain' (fun a b => b ≤ a + COMPILE_DELAY)
      (changeTimes (runLog env s (burst ++ [last]))))
    (htimes : ((burst ++ [last]).map (fun f => f.time)).Pairwise (fun a b => a ≤ b))
    (hlast : (frameLog env last (run env s burst)).changeDetected = true) :
    ∀ l ∈ runLog env s (burst ++ [last]), l.debounceFired = false := by
  induction burst generalizing s with
  | nil =>
    intro l hl
    have hl' : l = frameLog env last s := by
      simpa [runLog] using hl
    rw [hl', (frame_debounce env last s).1]
    have h₁ : (frameLog env last s).changeDetected = true := hlast
    rw [h₁]
    rfl
  | cons f rest ih =>
    have hlog : runLog env s (f :: rest ++ [last])
        = frameLog env f s :: runLog env (frame env f s) (rest ++ [last]) := rfl
    rw [hlog] at hstart hgaps ⊢
    rw [changeTimes_cons] at hstart hgaps
    obtain ⟨hfire, hlct, hcc, -⟩ := frame_debounce env f s
    have htimes' : ∀ t ∈ (rest ++ [last]).map (fun f => f.time), f.time ≤ t :=
      (List.pairwise_cons.mp htimes).1
    have hrest : ((rest ++ [last]).map (fun f => f.time)).Pairwise (fun a b => a ≤ b) :=
      (List.pairwise_cons.mp htimes).2
    have hlast' : (frameLog env last (run env (frame env f s) rest)).changeDetected = true :=
      hlast
    by_cases hd : (frameLog env f s).changeDetected = true
    · rw [if_pos hd] at hgaps
      rw [hd] at hfire hlct hcc
      have hchain : List.Chain (fun a b => b ≤ a + COMPILE_DELAY) f.time
          (changeTimes (runLog env (frame env f s) (rest ++ [last]))) := hgaps
      have hnofire : (frameLog env f s).debounceFired = false := by
        rw [hfire]
        rfl
      have hih := ih (frame env f s)
        (fun _ => Or.inr (by rw [hlct, if_pos rfl]; exact hchain))
        (List.Chain'.tail hgaps) hrest hlast'
      intro l hl
      rcases List.mem_cons.mp hl with h | h
      · rw [h]
        exact hnofire
      · exact hih l h
    · have hd' : (frameLog env f s).changeDetected = false := by simpa using hd
      rw [if_neg hd] at hstart hgaps
      rw [hd'] at hfire hlct hcc
      have hpending : s.codeChanged = true →
          List.Chain (fun a b => b ≤ a + COMPILE_DELAY) s.lastChangeTime
            (changeTimes (runLog env (frame env f s) (rest ++ [last]))) := by
        intro hc
        rcases hstart hc with ⟨f', rest', heq, hdet⟩ | hchain
        · have hf : f = f' := (List.cons.inj heq).1
          rw [← hf] at hdet
          exact absurd hdet hd
        · exact hchain
      have hnofire : (frameLog env f s).debounceFired = false := by
        rw [hfire]
        by_cases hc : s.codeChanged = true
        · have hchain := hpending hc
          have hmem : last.time
              ∈ changeTimes (runLog env (frame env f s) (rest ++ [last])) := by
            rw [mem_changeTimes]
            refine ⟨frameLog env last (run env (frame env f s) rest), ?_, hlast', rfl⟩
            rw [runLog_append]
            exact List.mem_append_right _ (List.mem_cons_self _ _)
          cases hct : changeTimes (runLog env (frame env f s) (rest ++ [last])) with
          | nil =>
            rw [hct] at hmem
            exact absurd hmem (List.not_mem_nil _)
          | cons t more =>
            rw [hct] at hchain
            have hR : t ≤ s.lastChangeTime + COMPILE_DELAY := (List.chain_cons.mp hchain).1
            have ht : t ∈ changeTimes (runLog env (frame env f s) (rest ++ [last])) := by
              rw [hct]
              exact List.mem_cons_self _ _
            obtain ⟨l, hl, -, hlt⟩ := (mem_changeTimes _ _).mp ht
            have ht' : t ∈ (rest ++ [last]).map (fun f => f.time) := by
              rw [← runLog_times env (rest ++ [last]) (frame env f s), ← hlt]
              exact List.mem_map_of_mem _ hl
            have hle := htimes' t ht'
            have hno : ¬ (fsub64 f.time s.lastChangeTime > COMPILE_DELAY) := by
              have hexact : f.time - s.lastChangeTime ≤ 1 / 2 := by
                unfold COMPILE_DELAY at hR
                linarith
              have hround := fsub64_le_half f.time s.lastChangeTime hexact
              unfold COMPILE_DELAY
              exact not_lt.mpr hround
            simp [hno]
        · have hc' : s.codeChanged = false := by simpa using hc
          rw [hc']
          rfl
      rw [hnofire] at hcc
      have hih := ih (frame env f s)
        (fun hc => Or.inr (by
          rw [hlct]
          simp only [Bool.false_eq_true, if_false]
          apply hpending
          rw [hcc] at hc
          simpa using hc))
        hgaps hrest hlast'
      intro l hl
      rcases List.mem_cons.mp hl with h | h
      · rw [h]
        exact hnofire
      · exact hih l h

/-- Frames that detect no change, started with a clean text, never fire. -/
theorem quiet_clean (env : Env) (fs : List FrameInput) (s : App)
    (hclean : s.codeChanged = false)
    (hquiet : ∀ l ∈ runLog env s fs, l.changeDetected = false) :
    (∀ l ∈ runLog env s fs, l.debounceFired = false) ∧ (run env s fs).codeChanged = false := by
  induction fs generalizing s with
  | nil => exact ⟨fun l hl => absurd hl (List.not_mem_nil _), hclean⟩
  | cons f rest ih =>
    have hlog : runLog env s (f :: rest)
        = frameLog env f s :: runLog env (frame env f s) rest := rfl
    rw [hlog] at hquiet ⊢
    obtain ⟨hfire, -, hcc, -⟩ := frame_debounce env f s
    have hd := hquiet _ (List.mem_cons_self _ _)
    rw [hd, hclean] at hfire hcc
    have hnofire : (frameLog env f s).debounceFired = false := hfire
    have hcc' : (frame env f s).codeChanged = false := hcc
    obtain ⟨h₁, h₂⟩ := ih (frame env f s) hcc'
      (fun l hl => hquiet l (List.mem_cons_of_mem _ hl))
    refine ⟨?_, h₂⟩
    intro l hl
    rcases List.mem_cons.mp hl with h | h
    · rw [h]
      exact hnofire
    · exact h₁ l h

/-- Frames that detect no change and whose `double` difference to the time of the last
change is not above `COMPILE_DELAY` do not fire and leave the text dirty. -/
theorem quiet_waiting (env : Env) (fs : List FrameInput) (s : App)
    (hdirty : s.codeChanged = true)
    (hquiet : ∀ l ∈ runLog env s fs, l.changeDetected = false)
    (hearly : ∀ f ∈ fs, ¬ (fsub64 f.time s.lastChangeTime > COMPILE_DELAY)) :
    (∀ l ∈ runLog env s fs, l.debounceFired = false)
      ∧ (run env s fs).codeChanged = true
      ∧ (run env s fs).lastChangeTime = s.lastChangeTime := by
  induction fs generalizing s with
  | nil => exact ⟨fun l hl => absurd hl (List.not_mem_nil _), hdirty, rfl⟩
  | cons f rest ih =>
    have hlog : runLog env s (f :: rest)
        = frameLog env f s :: runLog env (frame env f s) rest := rfl
    rw [hlog] at hquiet ⊢
    obtain ⟨hfire, hlct, hcc, -⟩ := frame_debounce env f s
    have hd := hquiet _ (List.mem_cons_self _ _)
    have hno : ¬ (fsub64 f.time s.lastChangeTime > COMPILE_DELAY) :=
      hearly f (List.mem_cons_self _ _)
    have hnofire : (frameLog env f s).debounceFired = false := by
      rw [hfire]
      simp [hno]
    rw [hd] at hlct
    rw [hd, hnofire, hdirty] at hcc
    have hcc' : (frame env f s).codeChanged = true := hcc
    have hlct' : (frame env f s).lastChangeTime = s.lastChangeTime := hlct
    obtain ⟨h₁, h₂, h₃⟩ := ih (frame env f s) hcc'
      (fun l hl => hquiet l (List.mem_cons_of_mem _ hl))
      (fun g hg => by rw [hlct']; exact hearly g (List.mem_cons_of_mem _ hg))
    refine ⟨?_, h₂, h₃.trans hlct'⟩
    intro l hl
    rcases List.mem_cons.mp hl with h | h
    · rw [h]
      exact hnofire
    · exact h₁ l h

/-- A frame that detects no change, with the text dirty and a `double` difference to the time
of the last change above `COMPILE_DELAY`, fires and clears the dirty flag. -/
theorem fire_frame (env : Env) (g : FrameInput) (s : App)
    (hdirty : s.codeChanged = true)
    (hquiet : (frameLog env g s).changeDetected = false)
    (hlate : fsub64 g.time s.lastChangeTime > COMPILE_DELAY) :
    (frameLog env g s).debounceFired = true ∧ (frame env g s).codeChanged = false := by
  obtain ⟨hfire, -, hcc, -⟩ := frame_debounce env g s
  have hyes : fsub64 g.time s.lastChangeTime > COMPILE_DELAY := hlate
  have hfired : (frameLog env g s).debounceFired = true := by
    rw [hfire, hquiet, hdirty]
    simp [hyes]
  refine ⟨hfired, ?_⟩
  rw [hcc, hquiet, hfired, hdirty]
  rfl

/-- In frames where no compile control is pressed, the compiler runs once if the debounce
logic fires and not at all otherwise. -/
theorem compiles_of_fired (env : Env) (fs : List FrameInput) (s : App)
    (hnone : ∀ f ∈ fs, manualTriggers f = 0) :
    (runLog env s fs).map (fun l => l.compiles)
      = ((runLog env s fs).map (fun l => l.debounceFired)).map
          (fun b => if b then 1 else 0) := by
  induction fs generalizing s with
  | nil => rfl
  | cons f rest ih =>
    have hlog : runLog env s (f :: rest)
        = frameLog env f s :: runLog env (frame env f s) rest := rfl
    rw [hlog, List.map_cons, List.map_cons, List.map_cons,
      ih (frame env f s) (fun g hg => hnone g (List.mem_cons_of_mem _ hg)),
      (frame_debounce env f s).2.2.2, hnone f (List.mem_cons_self _ _), Nat.zero_add]

theorem manualTriggers_eq_zero (inp : FrameInput) (h : manualTriggers inp = 0) :
    inp.compilerButton = false ∧ inp.openFile.loads = false ∧ inp.itemX = false
      ∧ inp.itemB = false ∧ inp.itemR = false ∧ inp.itemE = false := by
  unfold manualTriggers at h
  refine ⟨?_, ?_, ?_, ?_, ?_, ?_⟩
  · by_contra hc
    have hc' : inp.compilerButton = true := by simpa using hc
    rw [hc'] at h
    simp at h
  · by_contra hc
    have hc' : inp.openFile.loads = true := by simpa using hc
    rw [hc'] at h
    simp at h
  · by_contra hc
    have hc' : inp.itemX = true := by simpa using hc
    rw [hc'] at h
    simp at h
  · by_contra hc
    have hc' : inp.itemB = true := by simpa using hc
    rw [hc'] at h
    simp at h
  · by_contra hc
    have hc' : inp.itemR = true := by simpa using hc
    rw [hc'] at h
    simp at h
  · by_contra hc
    have hc' : inp.itemE = true := by simpa using hc
    rw [hc'] at h
    simp at h

theorem textDiffers_congr {s t : App} (h₁ : t.code_buffer = s.code_buffer)
    (h₂ : t.lastCode = s.lastCode) : textDiffers t = textDiffers s := by
  unfold textDiffers
  rw [h₁, h₂]

theorem cstr_cstr (b : List Nat) : cstr (cstr b ++ [0]) = cstr b := by
  apply cstr_append_zero
  intro x hx
  have h := List.mem_takeWhile_imp hx
  simpa using h

theorem textDiffers_detectChange (now : ℚ) (s : App) :
    textDiffers (detectChange now s) = false := by
  unfold detectChange
  split_ifs with h
  · unfold textDiffers
    simp only
    rw [cstr_cstr]
    simp
  · simpa using h

/-- After a frame in which the user did not edit, the buffer equals the snapshot. -/
theorem frame_settled (env : Env) (inp : FrameInput) (s : App) (hedit : inp.edit = none) :
    textDiffers (frame env inp s) = false := by
  have hframe : frame env inp s
      = logsWindow inp (resetButton env inp (zoomSlider env inp (pan inp (editor inp
          (debounce env inp.time (detectChange inp.time (menuBar env inp s))))))) := rfl
  obtain ⟨ha₁, -, ha₃⟩ := afterDebounce env inp (debounce env inp.time
    (detectChange inp.time (menuBar env inp s)))
  rw [← hframe] at ha₁ ha₃
  rw [textDiffers_congr (ha₃ hedit) ha₁.lastCode]
  have hd := textDiffers_detectChange inp.time (menuBar env inp s)
  generalize detectChange inp.time (menuBar env inp s) = d at hd
  unfold debounce
  split_ifs
  · rw [textDiffers_congr (doCompile_sameControls env _).code_buffer
      (doCompile_sameControls env _).lastCode]
    exact hd
  · exact hd

theorem menuBar_idle (env : Env) (inp : FrameInput) (s : App)
    (h : manualTriggers inp = 0) :
    (menuBar env inp s).code_buffer = s.code_buffer := by
  obtain ⟨h₁, h₂, h₃, h₄, h₅, h₆⟩ := manualTriggers_eq_zero inp h
  have hopen : openFileButton env inp s = s := by
    unfold openFileButton
    split
    · rename_i heq
      rw [heq] at h₂
      exact absurd h₂ (by simp [OpenFile.loads])
    · rfl
  unfold menuBar
  simp only
  rw [(logsButton_snapshot inp _).2.2, optionItemE_eq, h₆, optionItemR_eq, h₅, optionItemB_eq,
    h₄, optionItemX_eq, h₃]
  simp only [Bool.false_eq_true, if_false]
  unfold compilerButton
  rw [h₁]
  simp only [Bool.false_eq_true, if_false]
  rw [hopen]

/-- Once the buffer equals the snapshot, frames without edit and without a pressed compile
control detect no change. -/
theorem quiet_no_detect (env : Env) (fs : List FrameInput) (s : App)
    (hsettled : textDiffers s = false)
    (hidle : ∀ f ∈ fs, manualTriggers f = 0 ∧ f.edit = none) :
    ∀ l ∈ runLog env s fs, l.changeDetected = false := by
  induction fs generalizing s with
  | nil => exact fun l hl => absurd hl (List.not_mem_nil _)
  | cons f rest ih =>
    have hlog : runLog env s (f :: rest)
        = frameLog env f s :: runLog env (frame env f s) rest := rfl
    rw [hlog]
    obtain ⟨hf₁, hf₂⟩ := hidle f (List.mem_cons_self _ _)
    have hd : (frameLog env f s).changeDetected = false := by
      show textDiffers (menuBar env f s) = false
      rw [textDiffers_congr (menuBar_idle env f s hf₁) (menuBar_snapshot env f s).lastCode]
      exact hsettled
    have hih := ih (frame env f s) (frame_settled env f s hf₂)
      (fun g hg => hidle g (List.mem_cons_of_mem _ hg))
    intro l hl
    rcases List.mem_cons.mp hl with h | h
    · rw [h]
      exact hd
    · exact hih l h

/-- The frames that follow the last detected change: those whose `double` difference to its
time is not above `COMPILE_DELAY` do not fire, the first one whose difference is above it
fires, and none fires after that. -/
theorem after_last_change (env : Env) (s : App) (pre : List FrameInput) (g : FrameInput)
    (post : List FrameInput)
    (hdirty : s.codeChanged = true)
    (hquiet : ∀ l ∈ runLog env s (pre ++ [g] ++ post), l.changeDetected = false)
    (hpre : ∀ f ∈ pre, ¬ (fsub64 f.time s.lastChangeTime > COMPILE_DELAY))
    (hg : fsub64 g.time s.lastChangeTime > COMPILE_DELAY) :
    (runLog env s (pre ++ [g] ++ post)).map (fun l => l.debounceFired)
        = List.replicate pre.length false ++ true :: List.replicate post.length false
      ∧ (run env s (pre ++ [g])).codeChanged = false := by
  rw [runLog_append, runLog_append] at hquiet ⊢
  have hq₁ : ∀ l ∈ runLog env s pre, l.changeDetected = false :=
    fun l hl => hquiet l (List.mem_append_left _ (List.mem_append_left _ hl))
  have hq₂ : (frameLog env g (run env s pre)).changeDetected = false :=
    hquiet _ (List.mem_append_left _ (List.mem_append_right _ (List.mem_cons_self _ _)))
  have hq₃ : ∀ l ∈ runLog env (run env s (pre ++ [g])) post, l.changeDetected = false :=
    fun l hl => hquiet l (List.mem_append_right _ hl)
  obtain ⟨hw₁, hw₂, hw₃⟩ := quiet_waiting env pre s hdirty hq₁ hpre
  obtain ⟨hf₁, hf₂⟩ := fire_frame env g (run env s pre) hw₂ hq₂ (by rw [hw₃]; exact hg)
  have hrun : run env s (pre ++ [g]) = frame env g (run env s pre) := by
    rw [run_append]
    rfl
  rw [← hrun] at hf₂
  obtain ⟨hc₁, -⟩ := quiet_clean env post (run env s (pre ++ [g])) hf₂ hq₃
  refine ⟨?_, hf₂⟩
  rw [List.map_append, List.map_append,
    map_eq_replicate_of_forall _ false _ hw₁, map_eq_replicate_of_forall _ false _ hc₁,
    runLog_length, runLog_length]
  show _ ++ [(frameLog env g (run env s pre)).debounceFired] ++ _ = _
  rw [hf₁, List.append_assoc]
  rfl

/-- When a file is opened and no other compile control is pressed, the buffer that the
change detection sees is the one the load wrote. -/
theorem menuBar_open (env : Env) (inp : FrameInput) (s : App) (bytes : List Nat)
    (hopen : inp.openFile = OpenFile.content bytes) (honly : manualTriggers inp = 1) :
    (menuBar env inp s).code_buffer = (loadFile env bytes s).code_buffer := by
  have hloads : inp.openFile.loads = true := by
    rw [hopen]
    rfl
  unfold manualTriggers at honly
  rw [hloads] at honly
  simp only [eq_self_iff_true, if_true] at honly
  have h₁ : inp.compilerButton = false := by
    by_contra hc
    have hc' : inp.compilerButton = true := by simpa using hc
    rw [hc'] at honly
    simp only [eq_self_iff_true, if_true] at honly
    split_ifs at honly <;> omega
  have h₃ : inp.itemX = false := by
    by_contra hc
    have hc' : inp.itemX = true := by simpa using hc
    rw [hc'] at honly
    simp only [eq_self_iff_true, if_true] at honly
    split_ifs at honly <;> omega
  have h₄ : inp.itemB = false := by
    by_contra hc
    have hc' : inp.itemB = true := by simpa using hc
    rw [hc'] at honly
    simp only [eq_self_iff_true, if_true] at honly
    split_ifs at honly <;> omega
  have h₅ : inp.itemR = false := by
    by_contra hc
    have hc' : inp.itemR = true := by simpa using hc
    rw [hc'] at honly
    simp only [eq_self_iff_true, if_true] at honly
    split_ifs at honly <;> omega
  have h₆ : inp.itemE = false := by
    by_contra hc
    have hc' : inp.itemE = true := by simpa using hc
    rw [hc'] at honly
    simp only [eq_self_iff_true, if_true] at honly
    split_ifs at honly <;> omega
  have hopen' : ∀ t, openFileButton env inp t = loadFile env bytes t := by
    intro t
    unfold openFileButton
    rw [hopen]
  unfold menuBar
  simp only
  rw [(logsButton_snapshot inp _).2.2, optionItemE_eq, h₆, optionItemR_eq, h₅, optionItemB_eq,
    h₄, optionItemX_eq, h₃]
  simp only [Bool.false_eq_true, if_false]
  unfold compilerButton
  rw [h₁]
  simp only [Bool.false_eq_true, if_false]
  rw [hopen']

/-! ## Theorems -/

/-- C1: for every combination of the four flags the compiler is executed with `./tc`, then
`-X`, `-bB`, `--rename`, `-eE` for the flags that are set, in that order, then `--ast-dump`
and `-`; the switch of a flag occurs once when the flag is set and not at all otherwise. -/
theorem run_compiler_args_order (env : Env) (input : List Nat)
    (flagX flagB flagR flagE : Bool) (w : World) :
    (run_compiler_with_input env input flagX flagB flagR flagE w).2.trace
        = w.trace ++ [Event.exec (compiler_args flagX flagB flagR flagE) input]
      ∧ compiler_args flagX flagB flagR flagE
        = ["./tc"] ++ (if flagX then ["-X"] else []) ++ (if flagB then ["-bB"] else [])
            ++ (if flagR then ["--rename"] else []) ++ (if flagE then ["-eE"] else [])
            ++ ["--ast-dump", "-"]
      ∧ (compiler_args flagX flagB flagR flagE).count "-X" = (if flagX then 1 else 0)
      ∧ (compiler_args flagX flagB flagR flagE).count "-bB" = (if flagB then 1 else 0)
      ∧ (compiler_args flagX flagB flagR flagE).count "--rename" = (if flagR then 1 else 0)
      ∧ (compiler_args flagX flagB flagR flagE).count "-eE" = (if flagE then 1 else 0)
      ∧ (compiler_args flagX flagB flagR flagE).reverse.take 2 = ["-", "--ast-dump"] := by
  refine ⟨rfl, ?_⟩
  cases flagX <;> cases flagB <;> cases flagR <;> cases flagE <;> decide

/-- C2: if the diagram text is empty, or `dot` exits with a non-zero status, then
`generate_svg_from_dot` returns false and `/tmp/ast.svg` holds what it held before (with empty
text nothing is written and no command is run); the function returns true exactly when the
text is non-empty and `dot` exits with status zero, and only then is the move command run and
can the stable path change.  The tool `dot`, called with `-o /tmp/ast_new.svg`, is taken not to
touch `/tmp/ast.svg` itself. -/
theorem generate_svg_failure_keeps_stable (env : Env) (dotContent : String) (w : World)
    (hdot : ∀ tr fs, (env.system tr dotCmd fs).2 svgPath = fs svgPath) :
    let status := (system env dotCmd (writeFile env "/tmp/ast.dot" dotContent w)).1
    let r := generate_svg_from_dot env dotContent w
    (dotContent = "" → r = (false, w))
      ∧ (dotContent ≠ "" → status ≠ 0 →
          r.1 = false ∧ r.2.files svgPath = w.files svgPath
            ∧ r.2.trace = w.trace ++ [Event.write "/tmp/ast.dot" dotContent, Event.system dotCmd])
      ∧ (dotContent ≠ "" → status = 0 →
          r.1 = true
            ∧ r.2.trace = w.trace ++ [Event.write "/tmp/ast.dot" dotContent,
                Event.system dotCmd, Event.system mvCmd])
      ∧ (r.1 = true ↔ dotContent ≠ "" ∧ status = 0)
      ∧ (r.2.files svgPath ≠ w.files svgPath → dotContent ≠ "" ∧ status = 0) := by
  intro status r
  have hempty : dotContent = "" → r = (false, w) := by
    intro h
    simp [r, generate_svg_from_dot, h]
  have hfail : dotContent ≠ "" → status ≠ 0 →
      r.1 = false ∧ r.2.files svgPath = w.files svgPath
        ∧ r.2.trace = w.trace ++ [Event.write "/tmp/ast.dot" dotContent, Event.system dotCmd] := by
    intro h hs
    have hs' : (system env ("dot -Tsvg " ++ "/tmp/ast.dot" ++ " -o /tmp/ast_new.svg")
        (writeFile env "/tmp/ast.dot" dotContent w)).1 ≠ 0 := hs
    simp only [r, generate_svg_from_dot, if_neg h, if_pos hs']
    refine ⟨trivial, ?_, ?_⟩
    · have h₁ := hdot (writeFile env "/tmp/ast.dot" dotContent w).trace
        (writeFile env "/tmp/ast.dot" dotContent w).files
      simp only [system]
      rw [show ("dot -Tsvg " ++ "/tmp/ast.dot" ++ " -o /tmp/ast_new.svg") = dotCmd from rfl, h₁]
      simp only [writeFile]
      split_ifs
      · simp [svgPath]
      · rfl
    · simp [system, writeFile_trace, dotCmd]
  have hok : dotContent ≠ "" → status = 0 →
      r.1 = true
        ∧ r.2.trace = w.trace ++ [Event.write "/tmp/ast.dot" dotContent,
            Event.system dotCmd, Event.system mvCmd] := by
    intro h hs
    have hs' : ¬ (system env ("dot -Tsvg " ++ "/tmp/ast.dot" ++ " -o /tmp/ast_new.svg")
        (writeFile env "/tmp/ast.dot" dotContent w)).1 ≠ 0 := not_not.mpr hs
    simp only [r, generate_svg_from_dot, if_neg h, if_neg hs']
    refine ⟨trivial, ?_⟩
    simp [system, writeFile_trace, dotCmd, mvCmd]
  refine ⟨hempty, hfail, hok, ?_, ?_⟩
  · constructor
    · intro hr
      by_cases h : dotContent = ""
      · rw [hempty h] at hr
        exact absurd hr (by simp)
      · by_cases hs : status = 0
        · exact ⟨h, hs⟩
        · rw [(hfail h hs).1] at hr
          exact absurd hr (by simp)
    · rintro ⟨h, hs⟩
      exact (hok h hs).1
  · intro hr
    by_cases h : dotContent = ""
    · rw [hempty h] at hr
      exact absurd rfl hr
    · by_cases hs : status = 0
      · exact ⟨h, hs⟩
      · exact absurd (hfail h hs).2.1 hr

/-- Witness of C2: with a failing `dot` and an earlier image at the stable path, the call
returns false and the earlier image is still there. -/
theorem generate_svg_failure_keeps_stable_witness :
    (generate_svg_from_dot envDotFails "digraph" worldWithImage).1 = false
      ∧ (generate_svg_from_dot envDotFails "digraph" worldWithImage).2.files svgPath
          = some "old svg" :=
  have h := (generate_svg_failure_keeps_stable envDotFails "digraph" worldWithImage
    (fun _ _ => rfl)).2.1 (by decide) (by decide)
  ⟨h.1, h.2.1.trans (by decide)⟩

/-- C3, counterexample: texture 1 is shown and librsvg cannot load the image; after the
re-render the handle is 0, not 1, and texture 1 is no longer allocated. -/
theorem reRender_failure_counterexample :
    appShown.svgTexture = 1
      ∧ (render_svg_with_librsvg envLoadFails svgPath (dropTexture appShown).zoom
          (dropTexture appShown)).1.toBool = false
      ∧ (reRenderSVG envLoadFails appShown).svgTexture = 0
      ∧ appShown.world.textures = [1]
      ∧ (reRenderSVG envLoadFails appShown).world.textures = []
      ∧ (reRenderSVG envLoadFails appShown).world.trace
          = [Event.glDeleteTextures 1, Event.rsvgLoad svgPath,
              Event.stderr "Erreur rendu SVG: "] := by
  decide

/-- C3, amended: when a non-zero texture handle is held and the renderer fails during a
re-render, the old texture was released before the renderer was called, no texture is
created, and the handle afterwards is 0 ("no image"); zoom and pan are as before. -/
theorem reRender_failure_releases (env : Env) (s : App) (hne : s.svgTexture ≠ 0)
    (hfail : (render_svg_with_librsvg env svgPath (dropTexture s).zoom
      (dropTexture s)).1.toBool = false) :
    (reRenderSVG env s).svgTexture = 0
      ∧ (reRenderSVG env s).world.textures
          = s.world.textures.filter (fun t => t != s.svgTexture)
      ∧ s.svgTexture ∉ (reRenderSVG env s).world.textures
      ∧ (reRenderSVG env s).world.trace
          = s.world.trace ++ [Event.glDeleteTextures s.svgTexture, Event.rsvgLoad svgPath,
              Event.stderr "Erreur rendu SVG: "]
      ∧ (reRenderSVG env s).zoom = s.zoom
      ∧ (reRenderSVG env s).offsetX = s.offsetX
      ∧ (reRenderSVG env s).offsetY = s.offsetY := by
  have hc := reRenderSVG_sameControls env s
  have he := render_error env svgPath (dropTexture s).zoom (dropTexture s) hfail
  have hf := render_files env svgPath (dropTexture s).zoom (dropTexture s)
  have hd : dropTexture s
      = { s with world := glDeleteTextures s.svgTexture s.world, svgTexture := 0 } := by
    unfold dropTexture
    rw [if_pos hne]
  have htex : (reRenderSVG env s).world.textures
      = s.world.textures.filter (fun t => t != s.svgTexture) := by
    unfold reRenderSVG
    simp only
    split
    · rename_i heq
      rw [heq] at hfail
      simp [Except.toBool] at hfail
    · rename_i heq
      rw [heq] at he
      simp only [World.log]
      rw [he.2, hd]
      rfl
  refine ⟨?_, htex, ?_, ?_, hc.zoom, hc.offsetX, hc.offsetY⟩
  · unfold reRenderSVG
    simp only
    split
    · rename_i heq
      rw [heq] at hfail
      simp [Except.toBool] at hfail
    · rename_i heq
      rw [heq] at hf
      simp only
      rw [hf.2, hd]
  · rw [htex]
    simp
  · unfold reRenderSVG
    simp only
    split
    · rename_i heq
      rw [heq] at hfail
      simp [Except.toBool] at hfail
    · rename_i heq
      rw [heq] at he
      simp only [World.log]
      rw [he.1, hd]
      simp [glDeleteTextures]

/-- Witness of the amended C3 on the state and environment of the counterexample. -/
theorem reRender_failure_releases_witness :
    (reRenderSVG envLoadFails appShown).svgTexture = 0
      ∧ (1 : Nat) ∉ (reRenderSVG envLoadFails appShown).world.textures :=
  have h := reRender_failure_releases envLoadFails appShown (by decide) (by decide)
  ⟨h.1, h.2.2.1⟩

/-- C4: in a compile cycle the renderer is invoked exactly when the diagram text is non-empty
and `generate_svg_from_dot` returns true; when the text is empty or the rasterizer fails, the
texture handle, the image width and height, the zoom and the pan offset are as before the
cycle, and with empty text the cycle performs nothing but the compiler run and the message. -/
theorem doCompile_renders_iff (env : Env) (s : App) :
    let c := run_compiler_with_input env (cstr s.code_buffer) s.optionX s.optionB s.optionR
      s.optionE s.world
    let g := generate_svg_from_dot env c.1.out c.2
    let t := doCompile env s
    renderCount t.world.trace
        = renderCount s.world.trace + (if c.1.out ≠ "" ∧ g.1 = true then 1 else 0)
      ∧ (c.1.out = "" ∨ g.1 = false →
          t.svgTexture = s.svgTexture ∧ t.imgWidth = s.imgWidth ∧ t.imgHeight = s.imgHeight
            ∧ t.zoom = s.zoom ∧ t.offsetX = s.offsetX ∧ t.offsetY = s.offsetY
            ∧ t.world.textures = s.world.textures)
      ∧ (c.1.out = "" →
          t.world.trace = s.world.trace
              ++ [Event.exec (compiler_args s.optionX s.optionB s.optionR s.optionE)
                    (cstr s.code_buffer), Event.stderr keepOldImage]
            ∧ t.world.files = s.world.files) := by
  intro c g t
  have hc : SameControls s t := doCompile_sameControls env s
  have ht : t = doCompile env s := rfl
  have hg : g = generate_svg_from_dot env c.1.out c.2 := rfl
  have hc₁ : c.1 = env.tc s.world.trace (compiler_args s.optionX s.optionB s.optionR s.optionE)
      (cstr s.code_buffer) := rfl
  have hc₂ : c.2 = s.world.log (Event.exec
      (compiler_args s.optionX s.optionB s.optionR s.optionE) (cstr s.code_buffer)) := rfl
  rw [doCompile_eq] at ht
  simp only at ht
  rw [← hc₁, ← hc₂, ← hg] at ht
  have hgc := (generate_svg_counts env c.1.out c.2).2
  have hgt := generate_svg_textures env c.1.out c.2
  rw [← hg] at hgc hgt
  have hcr : renderCount c.2.trace = renderCount s.world.trace := by
    rw [hc₂, log_renderCount]
    rfl
  clear_value c g t
  refine ⟨?_, ?_, ?_⟩
  · split_ifs at ht with h₁ h₂
    · rw [if_pos h₁, ht, (reRenderSVG_counts env _).2]
      simp only
      rw [hgc, hcr]
    · rw [if_neg h₁, ht]
      simp only
      rw [log_renderCount, hgc, hcr]
      rfl
    · rw [if_neg h₁, ht]
      simp only
      rw [log_renderCount, hcr]
      rfl
  · intro h
    refine ⟨?_, ?_, ?_, hc.zoom, hc.offsetX, hc.offsetY, ?_⟩
    all_goals
      split_ifs at ht with h₁ h₂
      · rcases h with h | h
        · exact absurd h h₁.1
        · rw [h₁.2] at h
          exact absurd h (by simp)
      · first
          | (rw [ht]; done)
          | (rw [ht]; simp only [World.log]; rw [hgt, hc₂]; rfl)
      · first
          | (rw [ht]; done)
          | (rw [ht]; simp only [World.log]; rw [hc₂]; rfl)
  · intro h
    rw [if_neg (fun h' => h'.1 h), if_neg (not_not.mpr h)] at ht
    rw [ht]
    simp only [World.log]
    rw [hc₂]
    simp [World.log]

/-- Witness of C4: in `env0` the compiler prints a graph and `dot` succeeds, so the first
cycle invokes the renderer once. -/
theorem doCompile_renders_iff_witness :
    renderCount (doCompile env0 appNoImage).world.trace = 1 :=
  (doCompile_renders_iff env0 appNoImage).1.trans (by decide)

/-- C6: in every state reached from startup by any sequence of frames in which the slider,
when moved, delivers a value of its range [0.05, 3.5], the zoom lies in [0.05, 3.5]. -/
theorem zoom_invariant (env : Env) (w : World) (frames : List FrameInput)
    (hslider : ∀ f ∈ frames, ∀ v, f.slider = some v → 1 / 20 ≤ v ∧ v ≤ 7 / 2) :
    1 / 20 ≤ (run env (startup env w) frames).zoom
      ∧ (run env (startup env w) frames).zoom ≤ 7 / 2 := by
  have hstart : 1 / 20 ≤ (startup env w).zoom ∧ (startup env w).zoom ≤ 7 / 2 := by
    unfold startup
    rw [(doCompile_sameControls env _).zoom]
    exact stdClamp_bounds 1
  generalize startup env w = s at hstart
  induction frames generalizing s with
  | nil => exact hstart
  | cons f rest ih =>
    unfold run
    apply ih
    · intro g hg
      exact hslider g (List.mem_cons_of_mem _ hg)
    · exact frame_zoom env f s hstart (hslider f (List.mem_cons_self _ _))

/-- Witness of C6: the slider is moved to 2, then Reset is pressed with a 200 by 200 area. -/
theorem zoom_invariant_witness :
    1 / 20 ≤ (run env0 (startup env0 world0)
        [{ idleFrame 1 with slider := some 2 },
         { idleFrame 2 with resetButton := true, imageAreaWidth := 200,
                            childSizeY := 200 }]).zoom
      ∧ (run env0 (startup env0 world0)
        [{ idleFrame 1 with slider := some 2 },
         { idleFrame 2 with resetButton := true, imageAreaWidth := 200,
                            childSizeY := 200 }]).zoom ≤ 7 / 2 :=
  zoom_invariant env0 world0 _ (by
    intro f hf v hv
    simp only [List.mem_cons, List.mem_singleton, List.not_mem_nil, or_false] at hf
    rcases hf with rfl | rfl
    · simp only [idleFrame, Option.some.injEq] at hv
      subst hv
      norm_num
    · simp [idleFrame] at hv)

/-- C7, counterexample: with natural size 300 by 300 and available area 100 by 100 the claim
gives zoom 1/3, which is no `float`; Reset leaves the `float` quotient 11184811/33554432.
With natural size 400 by 300 and area 1 by 1 the claim gives 1/20; Reset leaves `0.05f`. -/
theorem reset_fits_counterexample :
    appSquare.baseSVGWidth = 300 ∧ appSquare.baseSVGHeight = 300
      ∧ max (1 / 20 : ℚ) (min (7 / 2) (min (100 / 300) (100 / 300))) = 1 / 3
      ∧ (reset env0 100 100 appSquare).zoom = 11184811 / 33554432
      ∧ (reset env0 100 100 appSquare).zoom ≠ 1 / 3
      ∧ appShown.baseSVGWidth = 400 ∧ appShown.baseSVGHeight = 300
      ∧ max (1 / 20 : ℚ) (min (7 / 2) (min (1 / 400) (1 / 300))) = 1 / 20
      ∧ (reset env0 1 1 appShown).zoom = 13421773 / 268435456
      ∧ (reset env0 1 1 appShown).zoom ≠ 1 / 20 := by
  refine ⟨rfl, rfl, by norm_num, by decide!, by decide!, rfl, rfl, by norm_num, by decide!,
    by decide!⟩

/-- C7, amended: a Reset with positive natural dimensions and a positive available area sets
the zoom to the smaller of the two fit ratios, each computed as a `float` division of the
available size by the natural size converted to `float`, clamped to [`0.05f`, 3.5], and the
pan offset to (0, 0). -/
theorem reset_fits (env : Env) (aw ah : ℚ) (s : App)
    (hw : 0 < s.baseSVGWidth) (hh : 0 < s.baseSVGHeight) (haw : 0 < aw) (hah : 0 < ah) :
    (reset env aw ah s).zoom
        = max FLOAT_0_05 (min (7 / 2) (min (fdiv32 aw (intToFloat s.baseSVGWidth))
            (fdiv32 ah (intToFloat s.baseSVGHeight))))
      ∧ (reset env aw ah s).offsetX = 0
      ∧ (reset env aw ah s).offsetY = 0 := by
  have hlo : FLOAT_0_05 ≤ (7 : ℚ) / 2 := by
    unfold FLOAT_0_05
    norm_num
  unfold reset
  simp only
  rw [if_pos ⟨hw, hh, haw, hah⟩]
  refine ⟨?_, (reRenderSVG_sameControls env _).offsetX, (reRenderSVG_sameControls env _).offsetY⟩
  rw [(reRenderSVG_sameControls env _).zoom]
  simp only
  rw [stdClamp_eq _ _ _ hlo, stdMin_eq]

/-- Witness of C7: natural size 400 by 300 and available area 200 by 200 give zoom 1/2 and
pan (0, 0). -/
theorem reset_fits_witness :
    (reset env0 200 200 appShown).zoom = 1 / 2
      ∧ (reset env0 200 200 appShown).offsetX = 0
      ∧ (reset env0 200 200 appShown).offsetY = 0 :=
  have h := reset_fits env0 200 200 appShown (by decide) (by decide) (by norm_num)
    (by norm_num)
  have h₁ : fdiv32 200 (intToFloat appShown.baseSVGWidth) = 1 / 2 := by decide!
  have h₂ : fdiv32 200 (intToFloat appShown.baseSVGHeight) = 11184811 / 16777216 := by decide!
  ⟨h.1.trans (by rw [h₁, h₂]; norm_num [FLOAT_0_05]), h.2⟩

/-- C8, counterexample: with natural dimensions 0 by 0 and pan (5, 7), Reset leaves the zoom
alone but moves the pan offset to (0, 0). -/
theorem reset_invalid_counterexample :
    appNoImage.baseSVGWidth = 0
      ∧ appNoImage.offsetX = 5 ∧ appNoImage.offsetY = 7
      ∧ (reset env0 600 650 appNoImage).offsetX = 0
      ∧ (reset env0 600 650 appNoImage).offsetY = 0
      ∧ (reset env0 600 650 appNoImage).offsetX ≠ appNoImage.offsetX := by
  simp [reset, appNoImage, appShown]

/-- C8, amended: when a natural dimension or an available dimension is not positive, Reset
leaves the zoom, the texture handle, the image and natural dimensions, the files and the
textures unchanged, reports the condition on stderr, and sets the pan offset to (0, 0). -/
theorem reset_invalid_geometry (env : Env) (aw ah : ℚ) (s : App)
    (h : s.baseSVGWidth ≤ 0 ∨ s.baseSVGHeight ≤ 0 ∨ aw ≤ 0 ∨ ah ≤ 0) :
    (reset env aw ah s).zoom = s.zoom
      ∧ (reset env aw ah s).svgTexture = s.svgTexture
      ∧ (reset env aw ah s).imgWidth = s.imgWidth
      ∧ (reset env aw ah s).imgHeight = s.imgHeight
      ∧ (reset env aw ah s).baseSVGWidth = s.baseSVGWidth
      ∧ (reset env aw ah s).baseSVGHeight = s.baseSVGHeight
      ∧ (reset env aw ah s).world.files = s.world.files
      ∧ (reset env aw ah s).world.textures = s.world.textures
      ∧ (reset env aw ah s).world.trace
          = s.world.trace ++ [Event.stderr "Reset impossible : dimensions invalides"]
      ∧ (reset env aw ah s).offsetX = 0
      ∧ (reset env aw ah s).offsetY = 0 := by
  have hcond : ¬ (s.baseSVGWidth > 0 ∧ s.baseSVGHeight > 0 ∧ aw > 0 ∧ ah > 0) := by
    rintro ⟨h₁, h₂, h₃, h₄⟩
    rcases h with h | h | h | h
    · exact absurd h₁ (not_lt.mpr h)
    · exact absurd h₂ (not_lt.mpr h)
    · exact absurd h₃ (not_lt.mpr h)
    · exact absurd h₄ (not_lt.mpr h)
  unfold reset
  simp only
  rw [if_neg hcond]
  exact ⟨rfl, rfl, rfl, rfl, rfl, rfl, rfl, rfl, rfl, rfl, rfl⟩

/-- Witness of the amended C8 on the state of the counterexample. -/
theorem reset_invalid_geometry_witness :
    (reset env0 600 650 appNoImage).zoom = appNoImage.zoom
      ∧ (reset env0 600 650 appNoImage).offsetX = 0
      ∧ (reset env0 600 650 appNoImage).offsetY = 0 :=
  have h := reset_invalid_geometry env0 600 650 appNoImage (Or.inl (by decide))
  ⟨h.1, h.2.2.2.2.2.2.2.2.2⟩

/-- C10: after a file without NUL bytes is loaded into the 8192-byte buffer, the buffer
holds, as a NUL-terminated string, the first min(length, 8191) bytes of the content; for a
content longer than 8191 bytes these are its first 8191 bytes followed by a terminator at
index 8191; and the compile cycle of the load hands exactly that string to the compiler. -/
theorem loadFile_truncates (env : Env) (content : List Nat) (s : App)
    (hnul : ∀ b ∈ content, b ≠ 0) (hlen : s.code_buffer.length = CODE_BUFFER_SIZE) :
    (loadFile env content s).code_buffer.length = CODE_BUFFER_SIZE
      ∧ cstr (loadFile env content s).code_buffer = content.take 8191
      ∧ (cstr (loadFile env content s).code_buffer).length = min content.length 8191
      ∧ (8191 < content.length →
          (loadFile env content s).code_buffer.take 8191 = content.take 8191
            ∧ (loadFile env content s).code_buffer[8191]? = some 0)
      ∧ ∃ rest, (loadFile env content s).world.trace
          = s.world.trace ++ Event.exec (compiler_args s.optionX s.optionB s.optionR s.optionE)
              (content.take 8191) :: rest := by
  have hlen' : s.code_buffer.length = 8191 + 1 := hlen
  have hbuf := load_buffer s.code_buffer content 8191 hlen' hnul
  have hcode : (loadFile env content s).code_buffer
      = content.take 8191 ++ (List.replicate (8191 - content.length) 0 ++ [0]) := by
    unfold loadFile
    rw [(doCompile_sameControls env _).code_buffer]
    exact hbuf
  have hcstr : cstr (loadFile env content s).code_buffer = content.take 8191 := by
    rw [hcode]
    obtain ⟨r, hr⟩ := replicate_zero_append (8191 - content.length)
    rw [hr]
    exact cstr_append_zero _ _ (fun b hb => hnul b (List.mem_of_mem_take hb))
  refine ⟨?_, hcstr, ?_, ?_, ?_⟩
  · rw [hcode]
    simp only [List.length_append, List.length_take, List.length_replicate, List.length_singleton,
      CODE_BUFFER_SIZE]
    omega
  · rw [hcstr, List.length_take, min_comm]
  · intro hlong
    rw [hcode]
    have hk : 8191 - content.length = 0 := by omega
    have htake : (content.take 8191).length = 8191 := by
      rw [List.length_take]
      omega
    rw [hk]
    constructor
    · rw [List.take_append_of_le_length (by rw [htake])]
      rw [List.take_of_length_le (by rw [htake])]
    · rw [List.getElem?_append_right (by rw [htake]), htake]
      rfl
  · unfold loadFile
    obtain ⟨rest, hrest⟩ := doCompile_trace_head env
      { s with code_buffer := (strncpy s.code_buffer (content ++ [0])
          (CODE_BUFFER_SIZE - 1)).set (CODE_BUFFER_SIZE - 1) 0 }
    refine ⟨rest, ?_⟩
    have hc₂ : cstr ((strncpy s.code_buffer (content ++ [0])
        (CODE_BUFFER_SIZE - 1)).set (CODE_BUFFER_SIZE - 1) 0) = content.take 8191 := by
      have h := hcstr
      unfold loadFile at h
      rw [(doCompile_sameControls env _).code_buffer] at h
      exact h
    simp only at hrest ⊢
    rw [hrest, hc₂]

/-- Witness of C10: a file of 9000 bytes `a` leaves 8191 of them in the buffer, followed by
the terminator. -/
theorem loadFile_truncates_witness :
    cstr (loadFile env0 (List.replicate 9000 97) appShown).code_buffer
        = List.replicate 8191 97
      ∧ (loadFile env0 (List.replicate 9000 97) appShown).code_buffer[8191]? = some 0 :=
  have h := loadFile_truncates env0 (List.replicate 9000 97) appShown
    (by intro b hb; rw [List.eq_of_mem_replicate hb]; decide)
    (by
      rw [show appShown.code_buffer
        = defaultCode ++ List.replicate (CODE_BUFFER_SIZE - defaultCode.length) 0 from rfl,
        List.length_append, List.length_replicate]
      decide)
  ⟨h.2.1.trans (by rw [List.take_replicate]; rfl),
    (h.2.2.2.1 (by rw [List.length_replicate]; decide)).2⟩

/-- C5, counterexample: the text is typed at time 1/8, the change is detected in the frame at
time 1/4 + 2^-54, and the next frame comes at 3/4 + 2^-53, more than 0.5 later.  The three
times are `double` values; their difference 1/2 + 2^-54 rounds to 0.5 as a `double`, so the
test of line 367 is false and the compiler does not run in that frame. -/
theorem debounce_counterexample :
    roundDouble (1 / 8) = 1 / 8 ∧ roundDouble timeQuarter = timeQuarter
      ∧ roundDouble timeThreeQuarters = timeThreeQuarters
      ∧ (1 / 8 : ℚ) ≤ timeQuarter ∧ timeQuarter ≤ timeThreeQuarters
      ∧ (runLog env0 appShown [typingFrame (1 / 8) [97], idleFrame timeQuarter,
          idleFrame timeThreeQuarters]).map (fun l => l.changeDetected) = [false, true, false]
      ∧ timeThreeQuarters - timeQuarter > 1 / 2
      ∧ fsub64 timeThreeQuarters timeQuarter = 1 / 2
      ∧ (runLog env0 appShown [typingFrame (1 / 8) [97], idleFrame timeQuarter,
          idleFrame timeThreeQuarters]).map (fun l => l.compiles) = [0, 0, 0]
      ∧ (run env0 appShown [typingFrame (1 / 8) [97], idleFrame timeQuarter,
          idleFrame timeThreeQuarters]).codeChanged = true := by
  decide!

/-- C5, amended: take frames with non-decreasing times in which each detected change comes at
most 0.5 after the previous one, `last` being the frame of the last detected change; the
frames start with no change pending, or else with a frame that detects a change.  No change
is detected after `last`; `g` is the first frame after `last` for which the difference
between its time and the time of `last`, computed as a `double`, is above 0.5, and `pre` are
the frames between them.  Then the debounce logic fires in no frame up to `last` nor in
`pre`, fires in `g`, which clears the dirty flag, and fires in no frame after `g`; when no
compile control is pressed in these frames, the compiler runs once, in `g`. -/
theorem debounce_burst (env : Env) (s : App) (burst : List FrameInput) (last : FrameInput)
    (pre : List FrameInput) (g : FrameInput) (post : List FrameInput)
    (hstart : s.codeChanged = true →
      ∃ f rest, burst ++ [last] = f :: rest ∧ (frameLog env f s).changeDetected = true)
    (htimes : ((burst ++ [last] ++ (pre ++ [g] ++ post)).map (fun f => f.time)).Pairwise
      (fun a b => a ≤ b))
    (hgaps : List.Chain' (fun a b => b ≤ a + COMPILE_DELAY)
      (changeTimes (runLog env s (burst ++ [last]))))
    (hlast : (frameLog env last (run env s burst)).changeDetected = true)
    (hquiet : ∀ l ∈ runLog env (run env s (burst ++ [last])) (pre ++ [g] ++ post),
      l.changeDetected = false)
    (hpre : ∀ f ∈ pre, ¬ (fsub64 f.time last.time > COMPILE_DELAY))
    (hg : fsub64 g.time last.time > COMPILE_DELAY) :
    (runLog env s (burst ++ [last] ++ (pre ++ [g] ++ post))).map (fun l => l.debounceFired)
        = List.replicate (burst.length + 1 + pre.length) false
            ++ true :: List.replicate post.length false
      ∧ (run env s (burst ++ [last] ++ (pre ++ [g]))).codeChanged = false
      ∧ ((∀ f ∈ burst ++ [last] ++ (pre ++ [g] ++ post), manualTriggers f = 0) →
          (runLog env s (burst ++ [last] ++ (pre ++ [g] ++ post))).map (fun l => l.compiles)
            = List.replicate (burst.length + 1 + pre.length) 0
                ++ 1 :: List.replicate post.length 0) := by
  have htimes₁ : ((burst ++ [last]).map (fun f => f.time)).Pairwise (fun a b => a ≤ b) := by
    rw [List.map_append] at htimes
    exact (List.pairwise_append.mp htimes).1
  have hburst := burst_no_fire env last burst s (fun h => Or.inl (hstart h)) hgaps htimes₁
    hlast
  have hrun : run env s (burst ++ [last]) = frame env last (run env s burst) := by
    rw [run_append]
    rfl
  obtain ⟨-, hlct, hcc, -⟩ := frame_debounce env last (run env s burst)
  rw [hlast] at hlct hcc
  rw [← hrun] at hlct hcc
  have hdirty : (run env s (burst ++ [last])).codeChanged = true := hcc
  have hlct' : (run env s (burst ++ [last])).lastChangeTime = last.time := hlct
  obtain ⟨hafter, hcleared⟩ := after_last_change env (run env s (burst ++ [last])) pre g post
    hdirty hquiet (by rw [hlct']; exact hpre) (by rw [hlct']; exact hg)
  have hflags : (runLog env s (burst ++ [last] ++ (pre ++ [g] ++ post))).map
      (fun l => l.debounceFired)
        = List.replicate (burst.length + 1 + pre.length) false
            ++ true :: List.replicate post.length false := by
    rw [runLog_append, List.map_append, hafter,
      map_eq_replicate_of_forall _ false _ hburst, runLog_length, List.length_append,
      List.length_singleton, ← List.append_assoc, List.replicate_add (burst.length + 1)]
  refine ⟨hflags, ?_, ?_⟩
  · rw [run_append]
    exact hcleared
  · intro hnone
    rw [compiles_of_fired env _ s hnone, hflags]
    simp

/-- Witness of C5: the user types "a" at time 1 and "ab" at time 5/4; the changes are
detected at 5/4 and 3/2; the frame at 7/4 is still within the delay, the frame at 17/8 is the
first after it and is the only one in which the compiler runs. -/
theorem debounce_burst_witness :
    (runLog env0 appShown
        ([typingFrame 1 [97], typingFrame (5 / 4) [97, 98]] ++ [idleFrame (3 / 2)]
          ++ ([idleFrame (7 / 4)] ++ [idleFrame (17 / 8)] ++ [idleFrame 3]))).map
        (fun l => l.compiles) = [0, 0, 0, 0, 1, 0] :=
  (debounce_burst env0 appShown [typingFrame 1 [97], typingFrame (5 / 4) [97, 98]]
    (idleFrame (3 / 2)) [idleFrame (7 / 4)] (idleFrame (17 / 8)) [idleFrame 3]
    (fun h => absurd h (by decide)) (by decide!)
    (by
      have h : changeTimes (runLog env0 appShown
          ([typingFrame 1 [97], typingFrame (5 / 4) [97, 98]] ++ [idleFrame (3 / 2)]))
          = [5 / 4, 3 / 2] := by decide!
      rw [h]
      simp only [List.chain'_cons, List.chain'_singleton, and_true, COMPILE_DELAY]
      norm_num)
    (by decide!) (by decide!) (by decide!) (by decide!)).2.2 (by decide!)

/-- C9, counterexample: a one-byte file is opened at time 1 while the buffer holds its
initial text; the load compiles at once, and the idle frame at time 2, with no edit and no
control pressed, compiles a second time. -/
theorem openFile_counterexample :
    (runLog env0 appShown [openFrame 1 [97], idleFrame 2]).map (fun l => l.compiles) = [1, 1]
      ∧ (runLog env0 appShown [openFrame 1 [97], idleFrame 2]).map
          (fun l => l.debounceFired) = [false, true]
      ∧ manualTriggers (idleFrame 2) = 0
      ∧ (openFrame 1 [97]).edit = none ∧ (idleFrame 2).edit = none := by
  decide!

/-- C9, amended: a file-open, the only compile control pressed in its frame, runs the
compiler once in that frame.  With no edit in that frame nor later, and no control pressed
later: if the loaded text differs from the last snapshot, the debounce logic runs the
compiler once more, in the first frame `g` for which the difference between its time and the
time of the load, computed as a `double`, is above 0.5; if the loaded text equals the
snapshot and no change was pending, the compiler does not run again. -/
theorem openFile_cycles (env : Env) (s : App) (bytes : List Nat) (f : FrameInput)
    (pre : List FrameInput) (g : FrameInput) (post : List FrameInput)
    (hopen : f.openFile = OpenFile.content bytes)
    (honly : manualTriggers f = 1)
    (hedit : f.edit = none)
    (hidle : ∀ f' ∈ pre ++ [g] ++ post, manualTriggers f' = 0 ∧ f'.edit = none) :
    (frameLog env f s).changeDetected
        = (cstr (loadFile env bytes s).code_buffer != cstr (s.lastCode ++ [0]))
      ∧ ((frameLog env f s).changeDetected = true →
          (∀ f' ∈ pre, ¬ (fsub64 f'.time f.time > COMPILE_DELAY)) →
          fsub64 g.time f.time > COMPILE_DELAY →
          (runLog env s (f :: (pre ++ [g] ++ post))).map (fun l => l.compiles)
            = 1 :: (List.replicate pre.length 0 ++ 1 :: List.replicate post.length 0))
      ∧ ((frameLog env f s).changeDetected = false → s.codeChanged = false →
          (runLog env s (f :: (pre ++ [g] ++ post))).map (fun l => l.compiles)
            = 1 :: List.replicate (pre ++ [g] ++ post).length 0) := by
  have hlog : runLog env s (f :: (pre ++ [g] ++ post))
      = frameLog env f s :: runLog env (frame env f s) (pre ++ [g] ++ post) := rfl
  obtain ⟨hfire, hlct, hcc, hcount⟩ := frame_debounce env f s
  have hquiet := quiet_no_detect env (pre ++ [g] ++ post) (frame env f s)
    (frame_settled env f s hedit) hidle
  have hnone : ∀ f' ∈ pre ++ [g] ++ post, manualTriggers f' = 0 := fun f' hf' => (hidle f' hf').1
  have hlater := compiles_of_fired env (pre ++ [g] ++ post) (frame env f s) hnone
  refine ⟨?_, ?_, ?_⟩
  · show textDiffers (menuBar env f s) = _
    unfold textDiffers
    rw [menuBar_open env f s bytes hopen honly, (menuBar_snapshot env f s).lastCode]
  · intro hd hpre hg
    rw [hd] at hfire hlct hcc
    have hnofire : (frameLog env f s).debounceFired = false := hfire
    rw [hnofire, honly] at hcount
    have hdirty : (frame env f s).codeChanged = true := hcc
    have hlct' : (frame env f s).lastChangeTime = f.time := hlct
    obtain ⟨hafter, -⟩ := after_last_change env (frame env f s) pre g post hdirty hquiet
      (by rw [hlct']; exact hpre) (by rw [hlct']; exact hg)
    rw [hlog, List.map_cons, hlater, hafter, hcount]
    simp
  · intro hd hclean
    rw [hd, hclean] at hfire hcc
    have hnofire : (frameLog env f s).debounceFired = false := hfire
    rw [hnofire, honly] at hcount
    have hclean' : (frame env f s).codeChanged = false := hcc
    obtain ⟨hno, -⟩ := quiet_clean env (pre ++ [g] ++ post) (frame env f s) hclean' hquiet
    rw [hlog, List.map_cons, hlater, map_eq_replicate_of_forall _ false _ hno, hcount,
      runLog_length]
    simp

/-- Witness of the amended C9: the file holding "a" is opened at time 1; the compiler runs in
that frame, not at time 5/4, once more at time 2, and not at time 3. -/
theorem openFile_cycles_witness :
    (runLog env0 appShown
        (openFrame 1 [97] :: ([idleFrame (5 / 4)] ++ [idleFrame 2] ++ [idleFrame 3]))).map
        (fun l => l.compiles) = [1, 0, 1, 0] :=
  (openFile_cycles env0 appShown [97] (openFrame 1 [97]) [idleFrame (5 / 4)] (idleFrame 2)
    [idleFrame 3] rfl (by decide!) rfl (by decide!)).2.1 (by decide!) (by decide!)
    (by decide!)

end TigerViewer
